import Mathlib

/-!
Verification of the venom compiler front-end (lexer + recursive-descent
parser) against its natural-language specification.

The C sources are shallowly embedded:
  * enums become Lean inductives with the same constructor order;
  * `VToken` becomes a structure whose `type` field is a tagged payload
    (the C stores a raw `uint32_t` that is always interpreted through the
    `kind` field first, so the tagged form is faithful for every token the
    lexer can produce);
  * the lexer main loop becomes a fuel-indexed function on `List Char`
    (fuel equals the number of remaining bytes; every C loop iteration
    consumes at least one byte, which is proved below);
  * the parser becomes a state monad over `VParser` with three outcomes:
    a value plus the new state, `crash` (a NULL-pointer dereference in the
    C, i.e. undefined behavior), and `fuelOut` (the fuel ran out; used
    only so that recursion is structural — concrete runs get enough fuel).

All machine integers involved (`uint32_t` positions, lines, stack depth)
stay far below 2^32 in every run considered here, so they are modelled as
`Nat`; the one place the C relies on wraparound (`PY_LEX_ERROR` being
nonzero) is modelled by the literal 0xFFFFFFFF.
-/

/- ===================== types (src/include/venom/type.h) ===================== -/

inductive VType where
  | Unknown
  | None
  | Int
  | Float
  | Bool
  | String
  | Bytes
  | List
  | Tuple
  | Dict
  | Set
  | UserClass
  | Object
deriving DecidableEq, Repr

/--
Embedding of `v_string_to_type` (src/src/type.c, lines 9-36).

The C receives a NUL-terminated `char*`; here the argument is the string
the pointer designates.  `strcmp(a, b) == 0` is string equality and a
bare `strcmp(a, b)` used as a truth value is string *in*equality, which
is exactly how the C uses it:

  * `if(strcmp("typing.", start) == 0) start += 7;` — an exact equality
    test against the whole string "typing." (not a prefix test), and on
    success the pointer is advanced past those 7 bytes;
  * `if(strcmp(start, "int")) return VType_Int;` — taken whenever the
    string is *different* from "int", and so on down the chain.

Note: in the real pipeline the parser passes `type_token->start`, the
NUL-terminated remainder of the source buffer beginning at the token, so
the argument is the token text only when the token sits at the very end
of the buffer; this makes the divergence from the spec even larger but
does not change the character of the bug evaluated below.
-/
def v_string_to_type (start : String) : VType :=
  let start := if "typing." = start then start.drop 7 else start
  if start ≠ "int" then VType.Int
  else if start ≠ "float" then VType.Float
  else if start ≠ "str" then VType.String
  else if start ≠ "bool" then VType.Bool
  else if start ≠ "List" then VType.List
  else if start ≠ "Tuple" then VType.Tuple
  else if start ≠ "Dict" then VType.Dict
  else if start ≠ "Set" then VType.Set
  else VType.Unknown

/--
The name-to-type mapping as the specification words it (spec §3):
bare names `int`, `float`, `str`, `bool`, `List`, `Tuple`, `Dict`, `Set`
are recognized, a leading `typing.` prefix is stripped before lookup, and
every other identifier resolves to `Object`.  This definition exists only
to state the divergence of the source from the spec; it is not part of
the embedding of the code.
-/
def v_string_to_type_from_spec (s : String) : VType :=
  let s := if s.toList.take 7 = "typing.".toList then String.mk (s.toList.drop 7) else s
  if s = "int" then VType.Int
  else if s = "float" then VType.Float
  else if s = "str" then VType.String
  else if s = "bool" then VType.Bool
  else if s = "List" then VType.List
  else if s = "Tuple" then VType.Tuple
  else if s = "Dict" then VType.Dict
  else if s = "Set" then VType.Set
  else VType.Object

/--
C1: the inverted `strcmp` tests in `v_string_to_type` make the bare name
"int" resolve to Float and every other argument (known names, unknown
names, `typing.`-prefixed names alike) resolve to Int; the function never
produces the mapping the specification describes (under which "int" ↦ Int,
"float" ↦ Float, "typing.str" ↦ String and unknown identifiers ↦ Object),
and no identifier can resolve to Object.
-/
theorem c1_string_to_type_strcmp_inverted :
    v_string_to_type "int" = VType.Float ∧
    v_string_to_type "float" = VType.Int ∧
    v_string_to_type "str" = VType.Int ∧
    v_string_to_type "typing.str" = VType.Int ∧
    v_string_to_type "somename" = VType.Int ∧
    v_string_to_type_from_spec "int" = VType.Int ∧
    v_string_to_type_from_spec "float" = VType.Float ∧
    v_string_to_type_from_spec "typing.str" = VType.String ∧
    v_string_to_type_from_spec "somename" = VType.Object ∧
    (∀ s : String, v_string_to_type s = VType.Int ∨ v_string_to_type s = VType.Float) := by
  refine ⟨by decide, by decide, by decide, by decide, by decide,
          by decide, by decide, by decide, by decide, ?_⟩
  intro s
  unfold v_string_to_type
  set t := if "typing." = s then s.drop 7 else s with ht
  by_cases h : t ≠ "int"
  · left; simp [h]
  · right
    have h2 : t = "int" := by simpa using h
    simp [h2]

/- ===================== tokens (src/include/venom/lexer.h) ===================== -/

inductive VTokenKind where
  | Identifier
  | Keyword
  | Literal
  | Operator
  | Delimiter
  | Newline
  | Indent
  | Dedent
  | Unknown
  | EOF
deriving DecidableEq, Repr

inductive VKeyword where
  | False_ | Await | Else | Import_ | Pass | None_ | Break | Except | In | Raise
  | True_ | Class | Finally | Is | Return | And | Continue | For | Lambda | Try
  | As | Def | From | Nonlocal | While | Assert | Del | Global | Not | With
  | Async | Elif | If | Or | Yield | Unknown
deriving DecidableEq, Repr

inductive VDelimiter where
  | LParen | RParen | LBracket | RBracket | LBrace | RBrace | Comma | Colon
  | Dot | SemiColon | At | RightArrow | Unknown
deriving DecidableEq, Repr

inductive VOperator where
  | Addition | Subtraction | Multiplication | Division | Modulus
  | Exponentiation | FloorDivision | Assign
  | AdditionAssign | SubtractionAssign | MultiplicationAssign | DivisionAssign
  | ModulusAssign | FloorDivisionAssign | ExponentiationAssign
  | BitwiseAndAssign | BitwiseOrAssign | BitwiseXorAssign
  | BitwiseLShiftAssign | BitwiseRShiftAssign
  | BitwiseAnd | BitwiseOr | BitwiseXor | BitwiseNot
  | BitwiseLShift | BitwiseRShift
  | ComparatorEquals | ComparatorNotEquals | ComparatorGreaterThan
  | ComparatorLessThan | ComparatorGreaterEqualsThan | ComparatorLessEqualsThan
  | LogicalAnd | LogicalOr | LogicalNot
  | IdentityIs | IdentityIsNot | MembershipIn | MembershipNotIn
  | Unknown
deriving DecidableEq, Repr

inductive VLiteral where
  | String | UnicodeString | RawString | FormattedString | Bytes | Integer | Float
deriving DecidableEq, Repr

/--
The C token stores a raw `uint32_t` `type` field whose meaning depends on
`kind`; every read of the field in lexer.c/ast.c first tests `kind`, so a
tagged payload is a faithful rendering.  `none` stands for the literal 0
the lexer writes into tokens that carry no subkind (identifiers, layout
tokens, EOF).
-/
inductive VTokenType where
  | none
  | kw (k : VKeyword)
  | op (o : VOperator)
  | delim (d : VDelimiter)
  | lit (l : VLiteral)
deriving DecidableEq, Repr

/--
Embedding of `VToken` (src/include/venom/lexer.h, lines 164-172); the
`start`/`length` pair that borrows bytes from the source buffer becomes
the borrowed substring itself.
-/
structure VToken where
  lexeme : String
  kind : VTokenKind
  type : VTokenType
  position : Nat
  line : Nat
deriving DecidableEq, Repr

/- ===================== AST nodes (src/include/venom/ast.h) ===================== -/

/-- Embedding of `VASTImportSymbol` (ast.h, lines 83-87). -/
structure VASTImportSymbol where
  name : String
  aliasName : Option String
deriving DecidableEq, Repr

/--
Embedding of the tagged-variant AST node hierarchy of ast.h as a sum
type, one constructor per `VASTNodeType_*` tag.  `NULL`-able child
pointers and `NULL`-able vectors become `Option`s.  The `VASTLiteral`
struct (one runtime `lit_type` tag plus a union) is flattened into one
constructor per union arm, each arm fixing the `lit_type` the matching
`v_ast_new_literal_*` constructor writes; `litTypeOf` below recovers the
`lit_type` field.  A float value is kept as the source lexeme to stay
clear of floating-point arithmetic (no claim inspects a float value).
-/
inductive VASTNode where
  | VASTSource (decls : List VASTNode)
  | VASTImport (name : String) (aliasName : Option String)
      (symbols : Option (List VASTImportSymbol))
  | VASTClass (name : String) (bases : Option (List VASTNode))
      (attributes : Option (List VASTNode)) (functions : Option (List VASTNode))
      (decorators : Option (List VASTNode))
  | VASTFunction (name : String) (params : List VASTNode) (body : VASTNode)
      (returnType : VType) (decorators : Option (List VASTNode))
  | VASTBody (stmts : List VASTNode)
  | VASTFor (isWhile : Bool) (target : Option VASTNode) (cond : VASTNode)
      (body : VASTNode)
  | VASTIf (condition : VASTNode) (body : VASTNode) (elseNode : Option VASTNode)
  | VASTReturn (value : Option VASTNode)
  | VASTAssignment (target : VASTNode) (value : VASTNode) (op : VOperator)
      (type : VType)
  | VASTUnOp (op : VOperator) (operand : VASTNode)
  | VASTBinOp (op : VOperator) (left : VASTNode) (right : VASTNode)
  | VASTTernOp (condition : VASTNode) (ifExpr : VASTNode) (elseExpr : VASTNode)
  | VASTDecorator (name : String)
  | VASTAttribute (name : String) (type : VType) (initialValue : Option VASTNode)
  | VASTSymbol (name : String) (type : VType)
  | VASTParameter (name : String) (type : VType) (defaultValue : Option VASTNode)
  | VASTLiteralInt (value : Int)
  | VASTLiteralFloat (lexeme : String)
  | VASTLiteralString (value : String)
  | VASTLiteralBool (value : Bool)
  | VASTLiteralNone
  | VASTLiteralList (elements : List VASTNode)
  | VASTLiteralDict (keys : List VASTNode) (values : List VASTNode)
  | VASTLiteralTuple (elements : List VASTNode)
  | VASTLiteralSet (elements : List VASTNode)
  | VASTFCall (callable : VASTNode) (args : Option (List VASTNode))
      (kwargNames : Option (List String)) (kwargValues : Option (List VASTNode))
  | VASTAttributeAccess (object : VASTNode) (attributeName : String)
  | VASTSubscript (value : VASTNode) (slice : VASTNode)
  | VASTSlice (start : Option VASTNode) (stop : Option VASTNode)
      (step : Option VASTNode)
  | VASTPass
  | VASTBreak
  | VASTContinue
deriving Repr

/-- The `node->type == VASTNodeType_VASTLiteral` test of the C. -/
def VASTNode.isLiteralNode : VASTNode → Bool
  | .VASTLiteralInt _ | .VASTLiteralFloat _ | .VASTLiteralString _
  | .VASTLiteralBool _ | .VASTLiteralNone | .VASTLiteralList _
  | .VASTLiteralDict _ _ | .VASTLiteralTuple _ | .VASTLiteralSet _ => true
  | _ => false

/--
The `lit_type` field each `v_ast_new_literal_*` constructor writes
(ast.c, lines 4096-4193); `VType.Unknown` for non-literal nodes.
-/
def VASTNode.litTypeOf : VASTNode → VType
  | .VASTLiteralInt _ => VType.Int
  | .VASTLiteralFloat _ => VType.Float
  | .VASTLiteralString _ => VType.String
  | .VASTLiteralBool _ => VType.Bool
  | .VASTLiteralNone => VType.None
  | .VASTLiteralList _ => VType.List
  | .VASTLiteralDict _ _ => VType.Dict
  | .VASTLiteralTuple _ => VType.Tuple
  | .VASTLiteralSet _ => VType.Set
  | _ => VType.Unknown

/- ===================== lexer (src/src/lexer.c) ===================== -/

/-- `is_letter` (lexer.c, line 205). -/
def is_letter (c : Char) : Bool :=
  (decide ('a' ≤ c) && decide (c ≤ 'z')) || (decide ('A' ≤ c) && decide (c ≤ 'Z'))

/-- `is_digit` (lexer.c, line 210). -/
def is_digit (c : Char) : Bool :=
  decide ('0' ≤ c) && decide (c ≤ '9')

/-- `is_identifier_start` (lexer.c, line 215). -/
def is_identifier_start (c : Char) : Bool :=
  is_letter c || c == '_'

/-- `is_identifier` (lexer.c, line 220). -/
def is_identifier (c : Char) : Bool :=
  is_letter c || is_digit c || c == '_'

/-- `is_delimiter` (lexer.c, line 225). -/
def is_delimiter (c : Char) : Bool :=
  c == '(' || c == ')' || c == '[' || c == ']' || c == '{' || c == '}' ||
  c == ',' || c == ':' || c == '.' || c == ';' || c == '@' || c == '-' || c == '>'

/-- `is_operator_start` (lexer.c, line 231). -/
def is_operator_start (c : Char) : Bool :=
  c == '+' || c == '-' || c == '*' || c == '/' || c == '&' || c == '|' ||
  c == '^' || c == '>' || c == '<' || c == '=' || c == '!' || c == '%' ||
  c == 'a' || c == 'i' || c == 'n' || c == 'o'

/-- `is_binary_operator` (lexer.c, line 238). -/
def is_binary_operator (c : Char) : Bool :=
  c == '+' || c == '-' || c == '*' || c == '/' || c == '&' || c == '|' ||
  c == '^' || c == '>' || c == '<' || c == '%'

/-- `is_unary_operator` (lexer.c, line 244). -/
def is_unary_operator (c : Char) : Bool :=
  c == '!'

/-- `is_assignment_operator` (lexer.c, line 249). -/
def is_assignment_operator (c : Char) : Bool :=
  c == '='

/-- `is_string_literal_prefix` (lexer.c, line 254). -/
def is_string_literal_prefix_char (c : Char) : Bool :=
  c == 'r' || c == 'u' || c == 'R' || c == 'U' || c == 'f' || c == 'F'

/-- `is_numeric_literal_start` (lexer.c, line 259). -/
def is_numeric_literal_start (c : Char) : Bool :=
  is_digit c

/--
The C scans NUL-terminated buffers; the embedding scans a `List Char`
whose end plays the role of the terminating NUL.  `countWhile p`
implements the ubiquitous `while(*s != '\0' && p(*s)) s++;` pattern and
returns how many characters were consumed.
-/
def countWhile (p : Char → Bool) : List Char → Nat
  | [] => 0
  | c :: rest => if p c then countWhile p rest + 1 else 0

/-- `PY_LEX_ERROR` (lexer.c, line 11): `0xFFFFFFFF`. -/
def PY_LEX_ERROR : Nat := 0xFFFFFFFF

/--
`is_operator` (lexer.c, lines 322-357): greedy run length for operator
spellings, `PY_LEX_ERROR` for a lone `!`, 0 when the first character is
no operator lead.
-/
def is_operator : List Char → Nat
  | [] => 0
  | c :: rest =>
    if is_binary_operator c then
      countWhile (fun d => is_binary_operator d || is_assignment_operator d) rest + 1
    else if is_assignment_operator c then
      match rest with
      | d :: _ => if is_assignment_operator d then 2 else 1
      | [] => 1
    else if is_unary_operator c then
      match rest with
      | d :: _ => if is_assignment_operator d then 2 else PY_LEX_ERROR
      | [] => PY_LEX_ERROR
    else 0

/--
`is_string_literal_start` (lexer.c, lines 359-395): length of the
opening-prefix-plus-quote sequence (1-3), 0 if the position does not
start a string literal.
-/
def is_string_literal_start : List Char → Nat
  | [] => 0
  | c0 :: rest =>
    if is_string_literal_prefix_char c0 then
      match rest with
      | [] => 0
      | c1 :: rest2 =>
        if c1 == '"' || c1 == '\'' then 2
        else if is_string_literal_prefix_char c1 then
          match rest2 with
          | c2 :: _ => if c2 == '"' || c2 == '\'' then 3 else 0
          | [] => 0
        else 0
    else if c0 == '"' || c0 == '\'' then
      match rest with
      | c1 :: c2 :: _ =>
        if (c1 == '"' || c1 == '\'') && (c2 == '"' || c2 == '\'') then 3 else 1
      | _ => 1
    else 0

/--
`consume_string_literal` (lexer.c, lines 397-415).  Returns the consumed
length together with the updated position and line counters; note the C
checks for a newline only *after* advancing, so the test applies to the
next character of the input, exactly as here.
-/
def consume_string_literal : List Char → Nat → Nat → Nat × Nat × Nat
  | [], position, line => (0, position, line)
  | c :: rest, position, line =>
    if c == '"' || c == '\'' then (0, position, line)
    else
      let position := position + 1
      let (position, line) :=
        match rest.head? with
        | some d => if d == '\n' then (0, line + 1) else (position, line)
        | Option.none => (position, line)
      let (length, position, line) := consume_string_literal rest position line
      (length + 1, position, line)

/-- `consume_int_literal` (lexer.c, lines 417-428). -/
def consume_int_literal (cs : List Char) : Nat :=
  countWhile is_digit cs

/--
`consume_float_literal` (lexer.c, lines 430-460): digits with at most one
dot; the result is the consumed length if a dot was seen, else 0.
-/
def consume_float_aux : List Char → Bool → Nat × Bool
  | [], found_dot => (0, found_dot)
  | c :: rest, found_dot =>
    if c == '.' then
      if found_dot then (0, found_dot)
      else
        let (n, f) := consume_float_aux rest true
        (n + 1, f)
    else if is_digit c then
      let (n, f) := consume_float_aux rest found_dot
      (n + 1, f)
    else (0, found_dot)

def consume_float_literal (cs : List Char) : Nat :=
  let (n, found_dot) := consume_float_aux cs false
  if found_dot then n else 0

/--
The keyword hash map built by `v_lexer_maps_init` (lexer.c, lines
475-544), as a function from the looked-up word to the stored code;
absence from the map is `VKeyword.Unknown` (lexer.c, lines 661-673).
-/
def v_lexer_maps_get_keyword (w : String) : VKeyword :=
  match w with
  | "False" => .False_ | "await" => .Await | "else" => .Else
  | "import" => .Import_ | "pass" => .Pass | "None" => .None_
  | "break" => .Break | "except" => .Except | "in" => .In
  | "raise" => .Raise | "True" => .True_ | "class" => .Class
  | "finally" => .Finally | "is" => .Is | "return" => .Return
  | "and" => .And | "continue" => .Continue | "for" => .For
  | "lambda" => .Lambda | "try" => .Try | "as" => .As
  | "def" => .Def | "from" => .From | "nonlocal" => .Nonlocal
  | "while" => .While | "assert" => .Assert | "del" => .Del
  | "global" => .Global | "not" => .Not | "with" => .With
  | "async" => .Async | "elif" => .Elif | "if" => .If
  | "or" => .Or | "yield" => .Yield
  | _ => .Unknown

/-- The delimiter map (lexer.c, lines 546-574 and 675-687). -/
def v_lexer_maps_get_delimiter (w : String) : VDelimiter :=
  match w with
  | "(" => .LParen | ")" => .RParen | "[" => .LBracket | "]" => .RBracket
  | "\x7b" => .LBrace | "\x7d" => .RBrace | "," => .Comma | ":" => .Colon
  | "." => .Dot | ";" => .SemiColon | "@" => .At | "->" => .RightArrow
  | _ => .Unknown

/-- The operator map (lexer.c, lines 576-658 and 689-701). -/
def v_lexer_maps_get_operator (w : String) : VOperator :=
  match w with
  | "+" => .Addition | "-" => .Subtraction | "*" => .Multiplication
  | "/" => .Division | "%" => .Modulus | "**" => .Exponentiation
  | "//" => .FloorDivision | "=" => .Assign
  | "+=" => .AdditionAssign | "-=" => .SubtractionAssign
  | "*=" => .MultiplicationAssign | "/=" => .DivisionAssign
  | "%=" => .ModulusAssign | "//=" => .FloorDivisionAssign
  | "**=" => .ExponentiationAssign | "&=" => .BitwiseAndAssign
  | "|=" => .BitwiseOrAssign | "^=" => .BitwiseXorAssign
  | "<<=" => .BitwiseLShiftAssign | ">>=" => .BitwiseRShiftAssign
  | "&" => .BitwiseAnd | "|" => .BitwiseOr | "^" => .BitwiseXor
  | "~" => .BitwiseNot | "<<" => .BitwiseLShift | ">>" => .BitwiseRShift
  | "==" => .ComparatorEquals | "!=" => .ComparatorNotEquals
  | ">" => .ComparatorGreaterThan | "<" => .ComparatorLessThan
  | ">=" => .ComparatorGreaterEqualsThan | "<=" => .ComparatorLessEqualsThan
  | "and" => .LogicalAnd | "or" => .LogicalOr | "not" => .LogicalNot
  | "is" => .IdentityIs | "is not" => .IdentityIsNot
  | "in" => .MembershipIn | "not in" => .MembershipNotIn
  | _ => .Unknown

/-- The three conditions under which `v_lexer_lex` returns `false`. -/
inductive LexFailReason where
  | invalidOperator
  | indentOverflow
  | unindentMismatch
deriving DecidableEq, Repr

/-- A lexical diagnostic: reason plus the line/position the C logs. -/
structure LexError where
  reason : LexFailReason
  line : Nat
  position : Nat
deriving DecidableEq, Repr

/--
Result of lexing.  `ok` also carries the final position/line counters
(the state right before the C pushes the EOF token); `fuelOut` is
reachable only if a loop iteration of the C would consume no input — the
lemma `v_lexer_lex_loop_no_fuelOut` below shows that never happens when
the loop is given one fuel unit per remaining byte.
-/
inductive LexRes where
  | ok (tokens : List VToken) (position : Nat) (line : Nat)
  | error (e : LexError)
  | fuelOut
deriving DecidableEq, Repr

/--
The dedent pop loop of the newline branch (lexer.c, lines 983-996):
while more than one level is on the stack and the top exceeds the new
indentation, pop and emit one Dedent token (whose `start` is the indent
run but whose length is 0, hence an empty lexeme).
-/
def dedentPops (stack : List Nat) (line_indent : Nat) (tokens : List VToken)
    (tokPosition tokLine : Nat) : List Nat × List VToken :=
  match stack with
  | s0 :: s1 :: rest =>
    if line_indent < s0 then
      dedentPops (s1 :: rest) line_indent
        (tokens ++ [{lexeme := "", kind := .Dedent, type := .none,
                     position := tokPosition, line := tokLine}])
        tokPosition tokLine
    else (stack, tokens)
  | _ => (stack, tokens)

/--
The run of extra Newline tokens (lexer.c, lines 931-939): one Newline per
additional physical line break, each recorded before `line` is bumped.
-/
def newlineRun : List Char → List VToken → Nat → Nat → List Char × List VToken × Nat
  | '\n' :: rest, tokens, position, line =>
    newlineRun rest
      (tokens ++ [{lexeme := "", kind := .Newline, type := .none,
                   position := position, line := line}])
      position (line + 1)
  | cs, tokens, _, line => (cs, tokens, line)

/-
The scan loop of `v_lexer_lex` (lexer.c, lines 748-1026).  One fuel unit
is spent per loop iteration; `v_lexer_lex` below supplies one unit per
input byte, which suffices because every iteration of the C loop
consumes at least one byte (`v_lexer_lex_loop_no_fuelOut`).  The C
variables `indent_size` and `indent_level` are written but never read
and are omitted.  A numeric position where neither a float nor an int
can be consumed, or an operator position where `is_operator` yields 0,
would make the C loop forever (the iteration consumes nothing); both
recurse on the unchanged input here and are proved unreachable below.

The body of the operator arm (`label_is_operator`, lexer.c, lines
891-918), entered either directly or through the failed-delimiter
`goto`, is split off into the pure decision function `lexOperatorStep`
whose verdict the loop then applies: report the invalid-operator error,
emit the operator token and skip its spelling, or (the unreachable
no-progress case) leave the input untouched.
-/

/-- Verdict of the operator arm; see the comment block above. -/
inductive OpStepRes where
  | err (e : LexError)
  | tok (t : VToken) (len : Nat) (newPosition : Nat)
  | stay
deriving DecidableEq, Repr

/-- Decision part of `label_is_operator` (lexer.c, lines 891-918). -/
def lexOperatorStep (cs : List Char) (position line : Nat) : OpStepRes :=
  let len := is_operator cs
  if len > 0 then
    -- uint32_t wraparound: len may be PY_LEX_ERROR here, and the C adds it
    -- to the 32-bit position before the error check
    let position := (position + len) % 2 ^ 32
    let lexeme := String.mk (cs.take len)
    let value := v_lexer_maps_get_operator lexeme
    if value = .Unknown ∨ len = PY_LEX_ERROR then
      .err {reason := .invalidOperator, line := line, position := position}
    else
      .tok {lexeme := lexeme, kind := .Operator, type := .op value,
            position := position, line := line} len position
  else .stay

/--
Verdict of one iteration of the scan loop: continue at `cont` with the
updated accumulators, stop with a lexical error, or (the no-progress
case that would loop the C forever, shown unreachable below) leave the
input untouched.
-/
inductive LexStep where
  | emit (cont : List Char) (tokens : List VToken) (stack : List Nat)
      (position line : Nat)
  | err (e : LexError)
  | stay
deriving Repr

/-
Body of one iteration of the scan loop of `v_lexer_lex` (lexer.c, lines
748-1026), for a non-empty input `c :: rest`.  Each arm of the if-else
chain of the C loop body becomes its own step function and `lexStep`
reproduces the chain, dispatching on the same conditions in the same
order; `continue` is rendered as `LexStep.emit`.
-/

/-- The string-literal arm (lexer.c, lines 750-771). -/
def stringLexStep (c : Char) (rest : List Char) (tokens : List VToken)
    (stack : List Nat) (position line : Nat) : LexStep :=
  let cs := c :: rest
  let slp := is_string_literal_start cs
  let cs1 := cs.drop slp
  let position := position + slp
  let (length, position, line) := consume_string_literal cs1 position line
  let token : VToken := {lexeme := String.mk (cs1.take length),
                         kind := .Literal, type := .lit .String,
                         position := position, line := line}
  let cs2 := cs1.drop length
  let quoteRun := countWhile (fun d => d == '"' || d == '\'') cs2
  .emit (cs2.drop quoteRun) (tokens ++ [token]) stack (position + quoteRun) line

/-- The numeric-literal arm (lexer.c, lines 772-810). -/
def numericLexStep (c : Char) (rest : List Char) (tokens : List VToken)
    (stack : List Nat) (position line : Nat) : LexStep :=
  let cs := c :: rest
  let flen := consume_float_literal cs
  if flen > 0 then
    let token : VToken := {lexeme := String.mk (cs.take flen),
                           kind := .Literal, type := .lit .Float,
                           position := position, line := line}
    .emit (cs.drop flen) (tokens ++ [token]) stack (position + flen) line
  else
    let ilen := consume_int_literal cs
    if ilen > 0 then
      let token : VToken := {lexeme := String.mk (cs.take ilen),
                             kind := .Literal, type := .lit .Integer,
                             position := position, line := line}
      .emit (cs.drop ilen) (tokens ++ [token]) stack (position + ilen) line
    else .stay

/-- The identifier/keyword arm (lexer.c, lines 811-859). -/
def identifierLexStep (c : Char) (rest : List Char) (tokens : List VToken)
    (stack : List Nat) (position line : Nat) : LexStep :=
  let cs := c :: rest
  let len := countWhile is_identifier rest + 1
  let lexeme := String.mk (cs.take len)
  let position := position + len
  let kwValue := v_lexer_maps_get_keyword lexeme
  if kwValue ≠ .Unknown then
    let token : VToken := {lexeme := lexeme, kind := .Keyword,
                           type := .kw kwValue,
                           position := position - len, line := line}
    .emit (cs.drop len) (tokens ++ [token]) stack position line
  else
    let opValue := v_lexer_maps_get_operator lexeme
    if opValue ≠ .Unknown then
      let token : VToken := {lexeme := lexeme, kind := .Operator,
                             type := .op opValue,
                             position := position - len, line := line}
      .emit (cs.drop len) (tokens ++ [token]) stack position line
    else
      let token : VToken := {lexeme := lexeme, kind := .Identifier,
                             type := .none,
                             position := position - len, line := line}
      .emit (cs.drop len) (tokens ++ [token]) stack position line

/-- Applying the verdict of the operator arm (lexer.c, lines 891-918). -/
def operatorArmStep (c : Char) (rest : List Char) (tokens : List VToken)
    (stack : List Nat) (position line : Nat) : LexStep :=
  match lexOperatorStep (c :: rest) position line with
  | .err e => .err e
  | .tok t oplen newPosition =>
    .emit ((c :: rest).drop oplen) (tokens ++ [t]) stack newPosition line
  | .stay => .stay

/-- The delimiter arm (lexer.c, lines 860-890), falling back to the
operator arm when the greedy run is not a known delimiter. -/
def delimiterLexStep (c : Char) (rest : List Char) (tokens : List VToken)
    (stack : List Nat) (position line : Nat) : LexStep :=
  let cs := c :: rest
  let len := if c == '-' then countWhile is_delimiter rest + 1 else 1
  let lexeme := String.mk (cs.take len)
  let value := v_lexer_maps_get_delimiter lexeme
  if value = .Unknown then
    operatorArmStep c rest tokens stack position line
  else
    let token : VToken := {lexeme := lexeme, kind := .Delimiter,
                           type := .delim value,
                           position := position + len, line := line}
    .emit (cs.drop len) (tokens ++ [token]) stack (position + len) line

/-- The newline/indentation arm (lexer.c, lines 920-1011). -/
def newlineLexStep (rest : List Char) (tokens : List VToken)
    (stack : List Nat) (position line : Nat) : LexStep :=
  let tokens := tokens ++ [{lexeme := "", kind := .Newline, type := .none,
                            position := position, line := line}]
  let line := line + 1
  let position := 0
  let (cs1, tokens, line) := newlineRun rest tokens position line
  let line_indent := countWhile (fun d => d == ' ') cs1
  let indentLexeme := String.mk (cs1.take line_indent)
  let cs2 := cs1.drop line_indent
  let position := position + line_indent
  if cs2.head? = some '\n' ∨ cs2 = [] ∨ cs2.head? = some '#' then
    .emit cs2 tokens stack position line
  else
    let current := stack.headD 0
    if line_indent > current then
      if stack.length ≥ 128 then
        .err {reason := .indentOverflow, line := line,
              position := position - line_indent}
      else
        let token : VToken := {lexeme := indentLexeme, kind := .Indent,
                               type := .none,
                               position := position - line_indent,
                               line := line}
        .emit cs2 (tokens ++ [token]) (line_indent :: stack) position line
    else if line_indent < current then
      let (stack, tokens) :=
        dedentPops stack line_indent tokens (position - line_indent) line
      if stack.headD 0 ≠ line_indent then
        .err {reason := .unindentMismatch, line := line,
              position := position - line_indent}
      else
        .emit cs2 tokens stack position line
    else
      .emit cs2 tokens stack position line

/-- The comment arm (lexer.c, lines 1013-1020). -/
def commentLexStep (c : Char) (rest : List Char) (tokens : List VToken)
    (stack : List Nat) (position line : Nat) : LexStep :=
  let cs := c :: rest
  let len := countWhile (fun d => d != '\n') cs
  .emit (cs.drop len) tokens stack (position + len) line

/-- One iteration of the scan loop: the if-else chain of the C body. -/
def lexStep (c : Char) (rest : List Char) (tokens : List VToken)
    (stack : List Nat) (position line : Nat) : LexStep :=
  if is_string_literal_start (c :: rest) ≠ 0 then
    stringLexStep c rest tokens stack position line
  else if is_numeric_literal_start c then
    numericLexStep c rest tokens stack position line
  else if is_identifier_start c then
    identifierLexStep c rest tokens stack position line
  else if is_delimiter c then
    delimiterLexStep c rest tokens stack position line
  else if is_operator_start c then
    operatorArmStep c rest tokens stack position line
  else if c == '\n' then
    newlineLexStep rest tokens stack position line
  else if c == '#' then
    commentLexStep c rest tokens stack position line
  else
    .emit rest tokens stack (position + 1) line

/--
The scan loop of `v_lexer_lex`: apply `lexStep` once per iteration, one
fuel unit per iteration.  At the end of input the C loop exits (the NUL
test) whatever the remaining fuel, so the empty case comes first.
-/
def v_lexer_lex_loop : Nat → List Char → List VToken → List Nat → Nat → Nat → LexRes
  | _, [], tokens, _, position, line => .ok tokens position line
  | 0, _ :: _, _, _, _, _ => .fuelOut
  | fuel + 1, c :: rest, tokens, stack, position, line =>
    match lexStep c rest tokens stack position line with
    | .emit cont tokens2 stack2 position2 line2 =>
      v_lexer_lex_loop fuel cont tokens2 stack2 position2 line2
    | .err e => .error e
    | .stay => v_lexer_lex_loop fuel (c :: rest) tokens stack position line

/--
Embedding of `v_lexer_lex` (lexer.c, lines 733-1033): run the scan loop
with one fuel unit per input byte (proved sufficient below), then append
the EOF token the C pushes just before returning `true`.  The indent
stack starts as the single entry 0 and `position`/`line` start at 1.
-/
def v_lexer_lex (buffer : List Char) : LexRes :=
  match v_lexer_lex_loop buffer.length buffer [] [0] 1 1 with
  | .ok tokens position line =>
    .ok (tokens ++ [{lexeme := "", kind := .EOF, type := .none,
                     position := position, line := line}]) position line
  | r => r

/- Fuel sufficiency for the lexer loop: every iteration of the C scan
loop consumes at least one byte of input. -/

theorem newlineRun_length_le :
    ∀ (cs : List Char) (tokens : List VToken) (position line : Nat),
      (newlineRun cs tokens position line).1.length ≤ cs.length := by
  intro cs
  induction cs with
  | nil => intro tokens position line; simp [newlineRun]
  | cons c rest ih =>
    intro tokens position line
    by_cases hc : c = '\n'
    · subst hc
      simpa [newlineRun] using Nat.le_succ_of_le (ih _ _ _)
    · rw [newlineRun.eq_def]
      split
      · rename_i heq
        injection heq with h1 h2
        subst h1
        simpa [h2] using Nat.le_succ_of_le (ih _ _ _)
      · simp

theorem is_operator_ne_zero (c : Char) (rest : List Char)
    (h : (is_binary_operator c || is_assignment_operator c || is_unary_operator c) = true) :
    is_operator (c :: rest) ≠ 0 := by
  rcases Bool.or_eq_true .. |>.mp h with h1 | h2
  · rcases Bool.or_eq_true .. |>.mp h1 with hb | ha
    · simp [is_operator, hb]
    · have hnb : is_binary_operator c = false := by
        revert ha; simp [is_assignment_operator, is_binary_operator]
        intro h; subst h; decide
      cases rest with
      | nil => simp [is_operator, hnb, ha]
      | cons d r =>
        simp only [is_operator, hnb, ha, Bool.false_eq_true, if_false, if_true]
        split <;> simp
  · have hnb : is_binary_operator c = false := by
      revert h2; simp [is_unary_operator, is_binary_operator]
      intro h; subst h; decide
    have hna : is_assignment_operator c = false := by
      revert h2; simp [is_unary_operator, is_assignment_operator]
      intro h; subst h; decide
    cases rest with
    | nil => simp [is_operator, hnb, hna, h2, PY_LEX_ERROR]
    | cons d r =>
      simp only [is_operator, hnb, hna, h2, Bool.false_eq_true, if_false, if_true]
      split <;> simp [PY_LEX_ERROR]

theorem opstart_not_ident_not_delim (c : Char)
    (h1 : is_operator_start c = true)
    (h2 : is_identifier_start c = false)
    (h3 : is_delimiter c = false) :
    (is_binary_operator c || is_assignment_operator c || is_unary_operator c) = true := by
  simp only [is_operator_start, Bool.or_eq_true, beq_iff_eq] at h1
  rcases h1 with (((((((((((((((h|h)|h)|h)|h)|h)|h)|h)|h)|h)|h)|h)|h)|h)|h)|h) <;> subst h <;> revert h2 h3 <;> decide

theorem delim_single_lookup (c : Char) (h : is_delimiter c = true) :
    c = '-' ∨ c = '>' ∨ v_lexer_maps_get_delimiter (String.mk [c]) ≠ .Unknown := by
  simp only [is_delimiter, Bool.or_eq_true, beq_iff_eq] at h
  rcases h with ((((((((((((h|h)|h)|h)|h)|h)|h)|h)|h)|h)|h)|h)|h) <;> subst h <;> decide

theorem lexOperatorStep_stay (cs : List Char) (p l : Nat)
    (h : lexOperatorStep cs p l = .stay) : is_operator cs = 0 := by
  simp only [lexOperatorStep] at h
  split at h
  · split at h
    · exact OpStepRes.noConfusion h
    · exact OpStepRes.noConfusion h
  · omega

theorem lexOperatorStep_tok_len (cs : List Char) (p l : Nat) (t : VToken)
    (len np : Nat) (h : lexOperatorStep cs p l = .tok t len np) : 1 ≤ len := by
  simp only [lexOperatorStep] at h
  split at h
  · split at h
    · exact OpStepRes.noConfusion h
    · rename_i hpos _
      rw [OpStepRes.tok.injEq] at h
      omega
  · exact OpStepRes.noConfusion h

theorem stringLexStep_shrinks (c : Char) (rest : List Char) (tokens : List VToken)
    (stack : List Nat) (position line : Nat)
    (hslp : is_string_literal_start (c :: rest) ≠ 0)
    (cont : List Char) (tokens2 : List VToken) (stack2 : List Nat) (position2 line2 : Nat)
    (h : stringLexStep c rest tokens stack position line = .emit cont tokens2 stack2 position2 line2) :
    cont.length ≤ rest.length := by
  simp only [stringLexStep] at h
  rw [LexStep.emit.injEq] at h
  obtain ⟨h1, -, -, -, -⟩ := h
  subst h1
  simp only [List.length_drop, List.length_cons]
  omega

theorem numericLexStep_emit_shrinks (c : Char) (rest : List Char) (tokens : List VToken)
    (stack : List Nat) (position line : Nat)
    (cont : List Char) (tokens2 : List VToken) (stack2 : List Nat) (position2 line2 : Nat)
    (h : numericLexStep c rest tokens stack position line = .emit cont tokens2 stack2 position2 line2) :
    cont.length ≤ rest.length := by
  simp only [numericLexStep] at h
  split at h
  · rename_i hflen
    rw [LexStep.emit.injEq] at h
    obtain ⟨h1, -, -, -, -⟩ := h
    subst h1
    simp only [List.length_drop, List.length_cons]
    omega
  · split at h
    · rename_i hilen
      rw [LexStep.emit.injEq] at h
      obtain ⟨h1, -, -, -, -⟩ := h
      subst h1
      simp only [List.length_drop, List.length_cons]
      omega
    · exact LexStep.noConfusion h

theorem numericLexStep_ne_stay (c : Char) (rest : List Char) (tokens : List VToken)
    (stack : List Nat) (position line : Nat)
    (hc : is_numeric_literal_start c = true) :
    numericLexStep c rest tokens stack position line ≠ .stay := by
  intro h
  simp only [numericLexStep] at h
  split at h
  · exact LexStep.noConfusion h
  · split at h
    · exact LexStep.noConfusion h
    · rename_i hilen
      simp only [is_numeric_literal_start] at hc
      simp [consume_int_literal, countWhile, hc] at hilen

theorem identifierLexStep_emit_shrinks (c : Char) (rest : List Char) (tokens : List VToken)
    (stack : List Nat) (position line : Nat)
    (cont : List Char) (tokens2 : List VToken) (stack2 : List Nat) (position2 line2 : Nat)
    (h : identifierLexStep c rest tokens stack position line = .emit cont tokens2 stack2 position2 line2) :
    cont.length ≤ rest.length := by
  simp only [identifierLexStep] at h
  split at h
  · rw [LexStep.emit.injEq] at h
    obtain ⟨h1, -, -, -, -⟩ := h
    subst h1
    simp only [List.length_drop, List.length_cons]
    omega
  · split at h
    · rw [LexStep.emit.injEq] at h
      obtain ⟨h1, -, -, -, -⟩ := h
      subst h1
      simp only [List.length_drop, List.length_cons]
      omega
    · rw [LexStep.emit.injEq] at h
      obtain ⟨h1, -, -, -, -⟩ := h
      subst h1
      simp only [List.length_drop, List.length_cons]
      omega

theorem operatorArmStep_emit_shrinks (c : Char) (rest : List Char) (tokens : List VToken)
    (stack : List Nat) (position line : Nat)
    (cont : List Char) (tokens2 : List VToken) (stack2 : List Nat) (position2 line2 : Nat)
    (h : operatorArmStep c rest tokens stack position line = .emit cont tokens2 stack2 position2 line2) :
    cont.length ≤ rest.length := by
  unfold operatorArmStep at h
  split at h
  · exact LexStep.noConfusion h
  · rename_i t oplen np hop
    rw [LexStep.emit.injEq] at h
    obtain ⟨h1, -, -, -, -⟩ := h
    subst h1
    have := lexOperatorStep_tok_len _ _ _ _ _ _ hop
    simp only [List.length_drop, List.length_cons]
    omega
  · exact LexStep.noConfusion h

theorem operatorArmStep_ne_stay (c : Char) (rest : List Char) (tokens : List VToken)
    (stack : List Nat) (position line : Nat)
    (hop : is_operator (c :: rest) ≠ 0) :
    operatorArmStep c rest tokens stack position line ≠ .stay := by
  intro h
  unfold operatorArmStep at h
  split at h
  · exact LexStep.noConfusion h
  · exact LexStep.noConfusion h
  · rename_i hstay
    exact hop (lexOperatorStep_stay _ _ _ hstay)

theorem delimiterLexStep_emit_shrinks (c : Char) (rest : List Char) (tokens : List VToken)
    (stack : List Nat) (position line : Nat)
    (cont : List Char) (tokens2 : List VToken) (stack2 : List Nat) (position2 line2 : Nat)
    (h : delimiterLexStep c rest tokens stack position line = .emit cont tokens2 stack2 position2 line2) :
    cont.length ≤ rest.length := by
  simp only [delimiterLexStep] at h
  split at h <;> split at h
  · exact operatorArmStep_emit_shrinks c rest tokens stack position line
      cont tokens2 stack2 position2 line2 h
  · rw [LexStep.emit.injEq] at h
    obtain ⟨h1, -, -, -, -⟩ := h
    subst h1
    simp only [List.length_drop, List.length_cons]
    omega
  · exact operatorArmStep_emit_shrinks c rest tokens stack position line
      cont tokens2 stack2 position2 line2 h
  · rw [LexStep.emit.injEq] at h
    obtain ⟨h1, -, -, -, -⟩ := h
    subst h1
    simp only [List.length_drop, List.length_cons]
    omega

theorem delimiterLexStep_ne_stay (c : Char) (rest : List Char) (tokens : List VToken)
    (stack : List Nat) (position line : Nat)
    (hdel : is_delimiter c = true) :
    delimiterLexStep c rest tokens stack position line ≠ .stay := by
  intro h
  by_cases hm : c = '-'
  · subst hm
    simp only [delimiterLexStep, beq_self_eq_true, if_true] at h
    split at h
    · exact operatorArmStep_ne_stay '-' rest tokens stack position line
        (is_operator_ne_zero '-' rest (by decide)) h
    · exact LexStep.noConfusion h
  · have hl : (c == '-') = false := by simp [hm]
    simp only [delimiterLexStep, hl, Bool.false_eq_true, if_false,
      List.take_succ_cons, List.take_zero] at h
    split at h
    · rename_i hval
      rcases delim_single_lookup c hdel with hc | hc | hc
      · exact hm hc
      · subst hc
        exact operatorArmStep_ne_stay '>' rest tokens stack position line
          (is_operator_ne_zero '>' rest (by decide)) h
      · exact hc hval
    · exact LexStep.noConfusion h

theorem newlineLexStep_emit_shrinks (rest : List Char) (tokens : List VToken)
    (stack : List Nat) (position line : Nat)
    (cont : List Char) (tokens2 : List VToken) (stack2 : List Nat) (position2 line2 : Nat)
    (h : newlineLexStep rest tokens stack position line = .emit cont tokens2 stack2 position2 line2) :
    cont.length ≤ rest.length := by
  simp only [newlineLexStep] at h
  have hlen : (newlineRun rest
      (tokens ++ [{lexeme := "", kind := .Newline, type := .none,
                   position := position, line := line}]) 0 (line + 1)).1.length ≤ rest.length :=
    newlineRun_length_le rest _ 0 (line + 1)
  split at h
  · rw [LexStep.emit.injEq] at h
    obtain ⟨h1, -, -, -, -⟩ := h
    subst h1
    simp only [List.length_drop]
    omega
  · split at h
    · split at h
      · exact LexStep.noConfusion h
      · rw [LexStep.emit.injEq] at h
        obtain ⟨h1, -, -, -, -⟩ := h
        subst h1
        simp only [List.length_drop]
        omega
    · split at h
      · split at h
        · exact LexStep.noConfusion h
        · rw [LexStep.emit.injEq] at h
          obtain ⟨h1, -, -, -, -⟩ := h
          subst h1
          simp only [List.length_drop]
          omega
      · rw [LexStep.emit.injEq] at h
        obtain ⟨h1, -, -, -, -⟩ := h
        subst h1
        simp only [List.length_drop]
        omega

theorem commentLexStep_emit_shrinks (c : Char) (rest : List Char) (tokens : List VToken)
    (stack : List Nat) (position line : Nat)
    (hc : (c == '#') = true)
    (cont : List Char) (tokens2 : List VToken) (stack2 : List Nat) (position2 line2 : Nat)
    (h : commentLexStep c rest tokens stack position line = .emit cont tokens2 stack2 position2 line2) :
    cont.length ≤ rest.length := by
  simp only [commentLexStep] at h
  rw [LexStep.emit.injEq] at h
  obtain ⟨h1, -, -, -, -⟩ := h
  subst h1
  have hcc : c = '#' := by simpa using hc
  subst hcc
  have hcw : countWhile (fun d => d != '\n') ('#' :: rest) =
      countWhile (fun d => d != '\n') rest + 1 := by
    simp [countWhile]
  simp only [hcw, List.length_drop, List.length_cons]
  omega

theorem identifierLexStep_ne_stay (c : Char) (rest : List Char) (tokens : List VToken)
    (stack : List Nat) (position line : Nat) :
    identifierLexStep c rest tokens stack position line ≠ .stay := by
  intro h
  simp only [identifierLexStep] at h
  split at h
  · exact LexStep.noConfusion h
  · split at h
    · exact LexStep.noConfusion h
    · exact LexStep.noConfusion h

theorem newlineLexStep_ne_stay (rest : List Char) (tokens : List VToken)
    (stack : List Nat) (position line : Nat) :
    newlineLexStep rest tokens stack position line ≠ .stay := by
  intro h
  simp only [newlineLexStep] at h
  split at h
  · exact LexStep.noConfusion h
  · split at h
    · split at h
      · exact LexStep.noConfusion h
      · exact LexStep.noConfusion h
    · split at h
      · split at h
        · exact LexStep.noConfusion h
        · exact LexStep.noConfusion h
      · exact LexStep.noConfusion h

theorem lexStep_emit_shrinks (c : Char) (rest : List Char) (tokens : List VToken)
    (stack : List Nat) (position line : Nat)
    (cont : List Char) (tokens2 : List VToken) (stack2 : List Nat) (position2 line2 : Nat)
    (h : lexStep c rest tokens stack position line = .emit cont tokens2 stack2 position2 line2) :
    cont.length ≤ rest.length := by
  unfold lexStep at h
  split at h
  · exact stringLexStep_shrinks c rest tokens stack position line (by assumption)
      cont tokens2 stack2 position2 line2 h
  · split at h
    · exact numericLexStep_emit_shrinks c rest tokens stack position line
        cont tokens2 stack2 position2 line2 h
    · split at h
      · exact identifierLexStep_emit_shrinks c rest tokens stack position line
          cont tokens2 stack2 position2 line2 h
      · split at h
        · exact delimiterLexStep_emit_shrinks c rest tokens stack position line
            cont tokens2 stack2 position2 line2 h
        · split at h
          · exact operatorArmStep_emit_shrinks c rest tokens stack position line
              cont tokens2 stack2 position2 line2 h
          · split at h
            · exact newlineLexStep_emit_shrinks rest tokens stack position line
                cont tokens2 stack2 position2 line2 h
            · split at h
              · exact commentLexStep_emit_shrinks c rest tokens stack position line
                  (by assumption) cont tokens2 stack2 position2 line2 h
              · rw [LexStep.emit.injEq] at h
                obtain ⟨h1, -, -, -, -⟩ := h
                subst h1
                omega

theorem lexStep_ne_stay (c : Char) (rest : List Char) (tokens : List VToken)
    (stack : List Nat) (position line : Nat) :
    lexStep c rest tokens stack position line ≠ .stay := by
  intro h
  unfold lexStep at h
  split at h
  · rename_i hslp
    simp only [stringLexStep] at h
    exact LexStep.noConfusion h
  · split at h
    · rename_i hnum
      exact numericLexStep_ne_stay c rest tokens stack position line hnum h
    · split at h
      · exact identifierLexStep_ne_stay c rest tokens stack position line h
      · split at h
        · rename_i hdel
          exact delimiterLexStep_ne_stay c rest tokens stack position line hdel h
        · split at h
          · rename_i hslp hnum hid hdel hops
            have hid2 : is_identifier_start c = false := by
              simpa using hid
            have hdel2 : is_delimiter c = false := by
              simpa using hdel
            exact operatorArmStep_ne_stay c rest tokens stack position line
              (is_operator_ne_zero c rest (opstart_not_ident_not_delim c hops hid2 hdel2)) h
          · split at h
            · exact newlineLexStep_ne_stay rest tokens stack position line h
            · split at h
              · simp only [commentLexStep] at h
                exact LexStep.noConfusion h
              · exact LexStep.noConfusion h

theorem v_lexer_lex_loop_no_fuelOut (fuel : Nat) :
    ∀ (cs : List Char) (tokens : List VToken) (stack : List Nat) (position line : Nat),
      cs.length ≤ fuel →
      v_lexer_lex_loop fuel cs tokens stack position line ≠ .fuelOut := by
  induction fuel with
  | zero =>
    intro cs tokens stack position line hle
    have hnil : cs = [] := List.length_eq_zero.mp (Nat.le_zero.mp hle)
    subst hnil
    simp [v_lexer_lex_loop]
  | succ fuel IH =>
    intro cs tokens stack position line hle
    rcases cs with _ | ⟨c, rest⟩
    · simp [v_lexer_lex_loop]
    · simp only [v_lexer_lex_loop]
      cases hstep : lexStep c rest tokens stack position line with
      | emit cont tokens2 stack2 position2 line2 =>
        have hshrink := lexStep_emit_shrinks c rest tokens stack position line
          cont tokens2 stack2 position2 line2 hstep
        have hle2 : cont.length ≤ fuel := by
          simp only [List.length_cons] at hle
          omega
        exact IH cont tokens2 stack2 position2 line2 hle2
      | err e => simp
      | stay => exact absurd hstep (lexStep_ne_stay c rest tokens stack position line)

/-- Projection of a lex run to the kind/subkind sequence of its tokens. -/
def lexKinds (s : String) : Option (List (VTokenKind × VTokenType)) :=
  match v_lexer_lex s.toList with
  | .ok ts _ _ => some (ts.map fun t => (t.kind, t.type))
  | _ => none

/--
C7: for every NUL-terminated input buffer, `v_lexer_lex` returns failure
only for an invalid operator spelling, an indent-depth overflow past the
128-entry indent stack, or an unindent that matches no level on the
indent stack; on every other input — including unterminated string
literals (`"abc`) and unrecognized bytes (`$`) — it returns success and
the final token of the output vector has kind EOF.
-/
theorem c7_lexer_total_or_three_failures :
    (∀ buffer : List Char,
      (∃ ts p l, v_lexer_lex buffer = .ok ts p l ∧
        (ts.getLast?.map VToken.kind) = some VTokenKind.EOF) ∨
      (∃ e, v_lexer_lex buffer = .error e ∧
        (e.reason = .invalidOperator ∨ e.reason = .indentOverflow ∨
         e.reason = .unindentMismatch))) ∧
    (∃ ts p l, v_lexer_lex "\"abc".toList = .ok ts p l) ∧
    (∃ ts p l, v_lexer_lex "$".toList = .ok ts p l) := by
  refine ⟨?_, ⟨_, _, _, rfl⟩, ⟨_, _, _, rfl⟩⟩
  intro buffer
  unfold v_lexer_lex
  cases hres : v_lexer_lex_loop buffer.length buffer [] [0] 1 1 with
  | ok ts p l =>
    left
    refine ⟨_, _, _, rfl, ?_⟩
    simp
  | error e =>
    right
    refine ⟨e, rfl, ?_⟩
    rcases e with ⟨r, l2, p2⟩
    cases r <;> simp
  | fuelOut =>
    exact absurd hres (v_lexer_lex_loop_no_fuelOut _ _ _ _ _ _ le_rfl)

/--
C8 counterexample: the lexer emits the raw string literal `r'a'` with
subkind String, not the RawString subkind the claim requires; the prefix
is consumed and discarded (lexer.c, lines 750-771 always write
`VLiteral_String`).
-/
theorem c8_raw_string_lexed_as_plain_string :
    v_lexer_lex "r'a'".toList =
      .ok [{lexeme := "a", kind := .Literal, type := .lit .String, position := 4, line := 1},
           {lexeme := "", kind := .EOF, type := .none, position := 5, line := 1}] 5 1 ∧
    VTokenType.lit .String ≠ VTokenType.lit .RawString := by
  constructor
  · decide
  · decide

/--
C8 amended: every string literal, whatever its one- or two-character
r/u/f prefix (case-insensitive), is emitted as a Literal token with
subkind String — the prefix is consumed but not reflected in the
subkind; numeric literals are classified Integer vs Float by the
presence of a `.` exactly as the claim states.
-/
theorem c8_string_subkind_constant_numeric_classified :
    lexKinds "'a'" = some [(.Literal, .lit .String), (.EOF, .none)] ∧
    lexKinds "r'a'" = some [(.Literal, .lit .String), (.EOF, .none)] ∧
    lexKinds "u'a'" = some [(.Literal, .lit .String), (.EOF, .none)] ∧
    lexKinds "f'a'" = some [(.Literal, .lit .String), (.EOF, .none)] ∧
    lexKinds "R'a'" = some [(.Literal, .lit .String), (.EOF, .none)] ∧
    lexKinds "U'a'" = some [(.Literal, .lit .String), (.EOF, .none)] ∧
    lexKinds "F'a'" = some [(.Literal, .lit .String), (.EOF, .none)] ∧
    lexKinds "rf\"a\"" = some [(.Literal, .lit .String), (.EOF, .none)] ∧
    lexKinds "123" = some [(.Literal, .lit .Integer), (.EOF, .none)] ∧
    lexKinds "1.5" = some [(.Literal, .lit .Float), (.EOF, .none)] ∧
    lexKinds "7." = some [(.Literal, .lit .Float), (.EOF, .none)] ∧
    lexKinds "0" = some [(.Literal, .lit .Integer), (.EOF, .none)] := by
  refine ⟨?_, ?_, ?_, ?_, ?_, ?_, ?_, ?_, ?_, ?_, ?_, ?_⟩ <;> rfl

/- ===================== parser driver (src/src/ast.c, lines 754-933) ===================== -/

/-- Embedding of `VParser` (ast.c, lines 756-762); the AST pointer is an
allocation context and has no observable state, so it is dropped. -/
structure VParser where
  tokens : List VToken
  current : Nat
  err : Option String
deriving DecidableEq, Repr

/--
Outcome of running a parser computation: a value with the new parser
state, `crash` for a NULL-pointer dereference / out-of-bounds vector
access in the C (undefined behavior), or `fuelOut` when the recursion
fuel of the embedding ran out (concrete runs below always get enough).
-/
inductive PResult (α : Type) where
  | ok (a : α) (st : VParser)
  | crash
  | fuelOut

/-- State-monad-with-crash carrying the `VParser`. -/
def PM (α : Type) := VParser → PResult α

instance : Monad PM where
  pure a := fun st => .ok a st
  bind m f := fun st =>
    match m st with
    | .ok a st2 => f a st2
    | .crash => .crash
    | .fuelOut => .fuelOut

/-- Read the parser state. -/
def getPst : PM VParser := fun st => .ok st st

/-- Replace the parser state. -/
def setPst (st : VParser) : PM Unit := fun _ => .ok () st

/-- Undefined behavior (NULL dereference or out-of-bounds access). -/
def crashPM {α : Type} : PM α := fun _ => .crash

/-- `v_parser_is_at_end` (ast.c, lines 764-768): past the vector or at a
token of kind EOF. -/
def v_parser_is_at_end : PM Bool := do
  let p ← getPst
  match p.tokens.get? p.current with
  | Option.none => pure true
  | some t => pure (t.kind == .EOF)

/-- `v_parser_peek` (ast.c, lines 770-778): NULL at end of input. -/
def v_parser_peek : PM (Option VToken) := do
  if (← v_parser_is_at_end) then pure Option.none
  else do
    let p ← getPst
    pure (p.tokens.get? p.current)

/--
`v_parser_advance` (ast.c, lines 780-788): bump the index unless at end,
then return `vector_at(tokens, current - 1)` — an out-of-bounds access
(undefined behavior, modelled as `crashPM`) if that index does not
exist, which the parser's guarded call sites never trigger.
-/
def v_parser_advance : PM VToken := do
  let atEnd ← v_parser_is_at_end
  let p ← getPst
  let p := if atEnd then p else {p with current := p.current + 1}
  setPst p
  if p.current = 0 then crashPM
  else
    match p.tokens.get? (p.current - 1) with
    | some t => pure t
    | Option.none => crashPM

/-- `v_parser_check` (ast.c, lines 790-798). -/
def v_parser_check (kind : VTokenKind) : PM Bool := do
  if (← v_parser_is_at_end) then pure false
  else do
    match (← v_parser_peek) with
    | some t => pure (t.kind == kind)
    | Option.none => crashPM

/-- `v_parser_check_keyword` (ast.c, lines 800-810). -/
def v_parser_check_keyword (keyword : VKeyword) : PM Bool := do
  if (← v_parser_is_at_end) then pure false
  else do
    match (← v_parser_peek) with
    | some t => pure (t.kind == .Keyword && t.type == .kw keyword)
    | Option.none => crashPM

/-- `v_parser_check_delimiter` (ast.c, lines 812-822). -/
def v_parser_check_delimiter (delimiter : VDelimiter) : PM Bool := do
  if (← v_parser_is_at_end) then pure false
  else do
    match (← v_parser_peek) with
    | some t => pure (t.kind == .Delimiter && t.type == .delim delimiter)
    | Option.none => crashPM

/-- `v_parser_check_operator` (ast.c, lines 824-834). -/
def v_parser_check_operator (op : VOperator) : PM Bool := do
  if (← v_parser_is_at_end) then pure false
  else do
    match (← v_parser_peek) with
    | some t => pure (t.kind == .Operator && t.type == .op op)
    | Option.none => crashPM

/-- `v_parser_match` (ast.c, lines 836-845). -/
def v_parser_match (kind : VTokenKind) : PM Bool := do
  if (← v_parser_check kind) then
    let _ ← v_parser_advance
    pure true
  else pure false

/-- `v_parser_match_keyword` (ast.c, lines 847-856). -/
def v_parser_match_keyword (keyword : VKeyword) : PM Bool := do
  if (← v_parser_check_keyword keyword) then
    let _ ← v_parser_advance
    pure true
  else pure false

/-- `v_parser_match_delimiter` (ast.c, lines 858-867). -/
def v_parser_match_delimiter (delimiter : VDelimiter) : PM Bool := do
  if (← v_parser_check_delimiter delimiter) then
    let _ ← v_parser_advance
    pure true
  else pure false

/-- `v_parser_match_operator` (ast.c, lines 869-878). -/
def v_parser_match_operator (op : VOperator) : PM Bool := do
  if (← v_parser_check_operator op) then
    let _ ← v_parser_advance
    pure true
  else pure false

/-- The diagnostic format of `v_parser_set_error` (ast.c, line 890). -/
def mkParseError (line : Nat) (message : String) : String :=
  "Parsing error at line " ++ toString line ++ ": " ++ message

/--
`v_parser_set_error` (ast.c, lines 880-891): keep the first error; the
line number is read through `v_parser_peek`'s result *without a NULL
check* — when the parser is at end of input (peek returns NULL) the C
dereferences a NULL pointer, modelled as `crashPM`.  (The guard
`token->line > 0 ? token->line : 0` is the identity on an unsigned
line and is dropped.)
-/
def v_parser_set_error (message : String) : PM Unit := do
  let p ← getPst
  if p.err.isSome then pure ()
  else do
    match (← v_parser_peek) with
    | Option.none => crashPM
    | some token =>
      setPst {p with err := some (mkParseError token.line message)}

/-- `v_parser_consume_kind` (ast.c, lines 893-905): NULL on mismatch. -/
def v_parser_consume_kind (kind : VTokenKind) (msg : String) : PM (Option VToken) := do
  if (← v_parser_check kind) then do
    let t ← v_parser_advance
    pure (some t)
  else do
    v_parser_set_error msg
    pure Option.none

/-- `v_parser_consume_delimiter` (ast.c, lines 907-919). -/
def v_parser_consume_delimiter (delimiter : VDelimiter) (msg : String) : PM (Option VToken) := do
  if (← v_parser_check_delimiter delimiter) then do
    let t ← v_parser_advance
    pure (some t)
  else do
    v_parser_set_error msg
    pure Option.none

/-- `v_parser_consume_keyword` (ast.c, lines 921-933). -/
def v_parser_consume_keyword (keyword : VKeyword) (msg : String) : PM (Option VToken) := do
  if (← v_parser_check_keyword keyword) then do
    let t ← v_parser_advance
    pure (some t)
  else do
    v_parser_set_error msg
    pure Option.none

/- ===================== literal conversions ===================== -/

/-- Decimal accumulation loop of a C `strtoll`/`strtod` integer part. -/
def decParse : List Char → Int → Nat → Int × Nat
  | c :: rest, acc, n =>
    if is_digit c then decParse rest (acc * 10 + (Int.ofNat c.toNat - 48)) (n + 1)
    else (acc, n)
  | [], acc, n => (acc, n)

/-- Octal accumulation loop (base 0 with a leading `0`). -/
def octParse : List Char → Int → Nat → Int × Nat
  | c :: rest, acc, n =>
    if decide ('0' ≤ c) && decide (c ≤ '7') then
      octParse rest (acc * 8 + (Int.ofNat c.toNat - 48)) (n + 1)
    else (acc, n)
  | [], acc, n => (acc, n)

/--
Model of `strtoll(token->start, &endptr, 0)` (ast.c, line 2945) on the
lexemes the venom lexer can put in an Integer token — a non-empty run
of decimal digits (the lexer admits no sign, no whitespace, no 0x/0b
prefix).  Base 0 means a leading `0` switches the remainder to octal.
Returns the value and the number of characters consumed (`endptr -
start`).
-/
def strtollBase0 (s : List Char) : Int × Nat :=
  match s with
  | '0' :: rest =>
    let (v, n) := octParse rest 0 0
    (v, n + 1)
  | c :: _ =>
    if is_digit c then decParse s 0 0 else (0, 0)
  | [] => (0, 0)

/--
Characters consumed by `strtod(token->start, &endptr)` (ast.c, line
2958) on the lexemes the venom lexer can put in a Float token — digits
with exactly one `.` (no sign, exponent or hex, which the lexer cannot
produce).  The numeric value itself is kept as the lexeme string in the
AST to stay clear of floating-point arithmetic.
-/
def strtodConsumed (s : List Char) : Nat :=
  let n1 := countWhile is_digit s
  match (s.drop n1).head? with
  | some '.' => n1 + 1 + countWhile is_digit (s.drop (n1 + 1))
  | _ => n1

/- ===================== type annotations (ast.c, lines 3329-3372) ===================== -/

/--
Embedding of `v_parse_type_annotation` (ast.c, lines 3329-3372).  The C
passes `type_token->start` — the NUL-terminated remainder of the source
buffer — to `v_string_to_type`; the embedding passes the token lexeme
(the two agree when the token ends the buffer; either way the inverted
`strcmp` logic recorded in C1 applies).  In the non-identifier branch
the C reads `type_token->kind` without a NULL check, so at end of input
it dereferences NULL (`crashPM`).
-/
def v_parse_type_annot : PM VType := do
  let type_token ← v_parser_peek
  match type_token with
  | some t =>
    if t.kind == .Identifier then do
      let _ ← v_parser_advance
      let type := v_string_to_type t.lexeme
      if (← v_parser_check_delimiter .LBracket) then do
        v_parser_set_error
          "Generic types (e.g., list[int]) not fully supported in type annotations yet"
        pure VType.Unknown
      else
        if type = VType.Unknown then pure VType.Object
        else pure type
    else do
      if t.kind == .Literal && t.type == .lit .String then do
        v_parser_set_error
          "String literal type hints (forward references) not supported yet"
        pure VType.Unknown
      else do
        v_parser_set_error "Expected type name (identifier) after \":\" or \"->\""
        pure VType.Unknown
  | Option.none => do
    -- the C falls into the else branch and reads type_token->kind from NULL
    crashPM

/- ===================== non-recursive productions ===================== -/

/-- `v_parse_decorator` (ast.c, lines 1051-1083). -/
def v_parse_decorator : PM (Option VASTNode) := do
  match (← v_parser_consume_delimiter .At "Expected \"@\" for decorator") with
  | Option.none => pure Option.none
  | some _ =>
    match (← v_parser_consume_kind .Identifier "Expected decorator name after \"@\"") with
    | Option.none => pure Option.none
    | some name_token => do
      if (← v_parser_check_delimiter .LParen) then do
        v_parser_set_error "Decorator arguments not supported yet"
        pure Option.none
      else
        match (← v_parser_consume_kind .Newline "Expected newline after decorator") with
        | Option.none => pure Option.none
        | some _ => pure (some (.VASTDecorator name_token.lexeme))

/-- `v_parse_variable` (ast.c, lines 2996-3008). -/
def v_parse_variable : PM (Option VASTNode) := do
  match (← v_parser_consume_kind .Identifier "Expected identifier") with
  | Option.none => pure Option.none
  | some token => pure (some (.VASTSymbol token.lexeme VType.Unknown))

/-- `v_parse_attribute_access` (ast.c, lines 3203-3223). -/
def v_parse_attribute_access (object : VASTNode) : PM (Option VASTNode) := do
  match (← v_parser_consume_delimiter .Dot "Expected \".\" for attribute access") with
  | Option.none => pure Option.none
  | some _ =>
    match (← v_parser_consume_kind .Identifier "Expected attribute name after \".\"") with
    | Option.none => pure Option.none
    | some attr_token => pure (some (.VASTAttributeAccess object attr_token.lexeme))

/-- `v_parse_pass_statement` (ast.c, lines 2168-2176). -/
def v_parse_pass_statement : PM (Option VASTNode) := do
  match (← v_parser_consume_keyword .Pass "Expected \"pass\" keyword") with
  | Option.none => pure Option.none
  | some _ => pure (some .VASTPass)

/-- `v_parse_break_statement` (ast.c, lines 2178-2186). -/
def v_parse_break_statement : PM (Option VASTNode) := do
  match (← v_parser_consume_keyword .Break "Expected \"break\" keyword") with
  | Option.none => pure Option.none
  | some _ => pure (some .VASTBreak)

/-- `v_parse_continue_statement` (ast.c, lines 2188-2196). -/
def v_parse_continue_statement : PM (Option VASTNode) := do
  match (← v_parser_consume_keyword .Continue "Expected \"continue\" keyword") with
  | Option.none => pure Option.none
  | some _ => pure (some .VASTContinue)

/--
The else-if chain of `v_parser_match_operator` calls in
`v_parse_expression_statement` (ast.c, lines 1852-1877): each test
consumes its operator on success, and the first success short-circuits
the rest.  `VOperator.Unknown` means none matched.
-/
def matchAssignOpChain : PM VOperator := do
  if (← v_parser_match_operator .Assign) then pure .Assign
  else if (← v_parser_match_operator .AdditionAssign) then pure .AdditionAssign
  else if (← v_parser_match_operator .SubtractionAssign) then pure .SubtractionAssign
  else if (← v_parser_match_operator .MultiplicationAssign) then pure .MultiplicationAssign
  else if (← v_parser_match_operator .DivisionAssign) then pure .DivisionAssign
  else if (← v_parser_match_operator .ModulusAssign) then pure .ModulusAssign
  else if (← v_parser_match_operator .FloorDivisionAssign) then pure .FloorDivisionAssign
  else if (← v_parser_match_operator .ExponentiationAssign) then pure .ExponentiationAssign
  else if (← v_parser_match_operator .BitwiseAndAssign) then pure .BitwiseAndAssign
  else if (← v_parser_match_operator .BitwiseOrAssign) then pure .BitwiseOrAssign
  else if (← v_parser_match_operator .BitwiseXorAssign) then pure .BitwiseXorAssign
  else if (← v_parser_match_operator .BitwiseLShiftAssign) then pure .BitwiseLShiftAssign
  else if (← v_parser_match_operator .BitwiseRShiftAssign) then pure .BitwiseRShiftAssign
  else pure .Unknown

/--
The class-body redistribution loop of `v_parse_class_declaration`
(ast.c, lines 1379-1482).  The accumulators mirror the C's lazily
allocated `attributes`/`functions` vectors (`Option.none` is the NULL,
never-allocated state).  `Function` statements go to `functions`
(allocating on first use), assignments to a bare `Symbol` become
`Attribute` nodes in `attributes` (allocating on first use), `Pass` and
bare string literals are dropped — but a nested `Class` is pushed with
`vector_push_back(attributes, &stmt)` with *no* NULL check (line 1448),
so if `attributes` was never allocated the C dereferences NULL
(`crashPM`).  Any other statement records an error and fails.
-/
def classifyClassBodyStmts :
    List VASTNode → Option (List VASTNode) → Option (List VASTNode) →
    PM (Option (Option (List VASTNode) × Option (List VASTNode)))
  | [], attributes, functions => pure (some (attributes, functions))
  | stmt :: rest, attributes, functions =>
    match stmt with
    | .VASTFunction _ _ _ _ _ =>
      classifyClassBodyStmts rest attributes (some (functions.getD [] ++ [stmt]))
    | .VASTAssignment target value _ type =>
      match target with
      | .VASTSymbol name _ =>
        classifyClassBodyStmts rest
          (some (attributes.getD [] ++ [.VASTAttribute name type (some value)])) functions
      | _ => do
        v_parser_set_error
          "Complex assignment target not allowed directly in class body (use methods)"
        pure Option.none
    | .VASTClass _ _ _ _ _ =>
      match attributes with
      | Option.none => crashPM
      | some attrs => classifyClassBodyStmts rest (some (attrs ++ [stmt])) functions
    | .VASTPass => classifyClassBodyStmts rest attributes functions
    | .VASTLiteralString _ => classifyClassBodyStmts rest attributes functions
    | _ => do
      v_parser_set_error "Unexpected statement type found directly in class body"
      pure Option.none

/--
Assembly of the elif/else chain of `v_parse_if_statement` (ast.c, lines
1937-2042): the C allocates each elif `If` node with a NULL `else_node`
and later patches the chain tail's `else_node` in place; functionally
that is a right fold installing each elif as the previous node's else
and the final else body innermost.
-/
def buildElifChain : List (VASTNode × VASTNode) → Option VASTNode → Option VASTNode
  | [], finalElse => finalElse
  | (cond, body) :: rest, finalElse =>
    some (.VASTIf cond body (buildElifChain rest finalElse))

/- ===================== recursive-descent parser (src/src/ast.c) =====================

Every production takes a fuel argument and spends one unit per call so
that the deep mutual recursion of the C is structural here; concrete
runs below always receive enough fuel (fuel bounds only the call depth
and the iteration count of the parsing loops).  C functions whose
bodies contain `while` loops get a companion `...Loop` function, also
fueled.  `v_parse_binary_op_left_assoc` receives its operand parser as
a function pointer in the C; here the pointer is an `OperandLevel` tag
interpreted by `operandParse`. -/

/-- The operand parsers passed to `v_parse_binary_op_left_assoc`. -/
inductive OperandLevel where
  | bitwiseXor | bitwiseAnd | shift | term | factor | unary
deriving DecidableEq, Repr

/-- The C casts `token->type` to `VOperator` after checking the kind;
tokens built by the lexer always carry an `op` payload there. -/
def tokTypeAsOp : VTokenType → VOperator
  | .op o => o
  | _ => .Unknown

/-- The C casts `token->type` to `VKeyword` after checking the kind. -/
def tokTypeAsKw : VTokenType → VKeyword
  | .kw k => k
  | _ => .Unknown

mutual

/-- `v_parse_source` (ast.c, lines 980-1020). -/
def v_parse_source : Nat → PM (Option VASTNode)
  | 0 => fun _ => .fuelOut
  | fuel + 1 => do
    skipLayoutLoop fuel
    match (← sourceDeclsLoop fuel []) with
    | Option.none => pure Option.none
    | some decls => pure (some (.VASTSource decls))

/-- The leading `while(match(Newline) || match(Indent) || match(Dedent))`
of `v_parse_source` (ast.c, lines 982-986). -/
def skipLayoutLoop : Nat → PM Unit
  | 0 => fun _ => .fuelOut
  | fuel + 1 => do
    if (← v_parser_match .Newline) then skipLayoutLoop fuel
    else if (← v_parser_match .Indent) then skipLayoutLoop fuel
    else if (← v_parser_match .Dedent) then skipLayoutLoop fuel
    else pure ()

/-- `while(v_parser_match(parser, VTokenKind_Newline))` skippers
(ast.c, lines 998-1001, 1570-1572, 1584-1587, 1625-1628). -/
def skipNewlinesLoop : Nat → PM Unit
  | 0 => fun _ => .fuelOut
  | fuel + 1 => do
    if (← v_parser_match .Newline) then skipNewlinesLoop fuel
    else pure ()

/-- The declaration loop of `v_parse_source` (ast.c, lines 996-1017). -/
def sourceDeclsLoop : Nat → List VASTNode → PM (Option (List VASTNode))
  | 0, _ => fun _ => .fuelOut
  | fuel + 1, decls => do
    if (← v_parser_is_at_end) then pure (some decls)
    else do
      skipNewlinesLoop fuel
      if (← v_parser_is_at_end) then pure (some decls)
      else
        match (← v_parse_declaration fuel) with
        | Option.none => pure Option.none
        | some decl => sourceDeclsLoop fuel (decls ++ [decl])

/-- `v_parse_decorators` (ast.c, lines 1022-1049); the NULL result of
the C stands both for "no decorators" and for the error path, which the
caller disambiguates through the error latch. -/
def v_parse_decorators : Nat → PM (Option (List VASTNode))
  | 0 => fun _ => .fuelOut
  | fuel + 1 => decoratorsLoop fuel Option.none

/-- The `while(check_delimiter(At))` loop of `v_parse_decorators`. -/
def decoratorsLoop : Nat → Option (List VASTNode) → PM (Option (List VASTNode))
  | 0, _ => fun _ => .fuelOut
  | fuel + 1, decorators => do
    if (← v_parser_check_delimiter .At) then do
      let decorators := some (decorators.getD [])
      match (← v_parse_decorator) with
      | Option.none => pure Option.none
      | some d => decoratorsLoop fuel (some (decorators.getD [] ++ [d]))
    else pure decorators

/-- `v_parse_declaration` (ast.c, lines 1085-1167). -/
def v_parse_declaration : Nat → PM (Option VASTNode)
  | 0 => fun _ => .fuelOut
  | fuel + 1 => do
    let decorators ← v_parse_decorators fuel
    let p ← getPst
    if p.err.isSome then pure Option.none
    else do
      let decl ←
        if (← v_parser_check_keyword .Class) then v_parse_class_declaration fuel
        else if (← v_parser_check_keyword .Def) then v_parse_function_declaration fuel
        else if (← v_parser_check_keyword .Import_) then v_parse_import fuel
        else if (← v_parser_check_keyword .From) then v_parse_import fuel
        else
          match decorators with
          | some _ => do
            v_parser_set_error "Expected class or function definition after decorator(s)"
            pure Option.none
          | Option.none => v_parse_statement fuel
      match decl with
      | Option.none => pure Option.none
      | some d =>
        match decorators with
        | Option.none => pure (some d)
        | some decs =>
          match d with
          | .VASTClass name bases attrs funcs _ =>
            pure (some (.VASTClass name bases attrs funcs (some decs)))
          | .VASTFunction name params body rt _ =>
            pure (some (.VASTFunction name params body rt (some decs)))
          | _ => do
            v_parser_set_error "Decorators can only be applied to functions or classes"
            pure Option.none

/-- `v_parse_import` (ast.c, lines 1169-1267). -/
def v_parse_import : Nat → PM (Option VASTNode)
  | 0 => fun _ => .fuelOut
  | fuel + 1 => do
    if (← v_parser_match_keyword .Import_) then do
      match (← v_parser_consume_kind .Identifier "Expected module name") with
      | Option.none => pure Option.none
      | some name_token => do
        if (← v_parser_match_keyword .As) then do
          match (← v_parser_consume_kind .Identifier "Expected module alias") with
          | Option.none => pure Option.none
          | some alias_token =>
            pure (some (.VASTImport name_token.lexeme (some alias_token.lexeme) Option.none))
        else
          pure (some (.VASTImport name_token.lexeme Option.none Option.none))
    else if (← v_parser_match_keyword .From) then do
      match (← v_parser_consume_kind .Identifier "Expected module name") with
      | Option.none => pure Option.none
      | some name_token => do
        match (← v_parser_consume_keyword .Import_ "Expected \"import\"") with
        | Option.none => pure Option.none
        | some _ => do
          match (← importSymbolsLoop fuel []) with
          | Option.none => pure Option.none
          | some symbols =>
            pure (some (.VASTImport name_token.lexeme Option.none (some symbols)))
    else do
      v_parser_set_error "Expected \"import\" or \"from\" keyword"
      pure Option.none

/-- The symbol loop of the `from NAME import …` branch (ast.c, lines
1214-1256). -/
def importSymbolsLoop : Nat → List VASTImportSymbol → PM (Option (List VASTImportSymbol))
  | 0, _ => fun _ => .fuelOut
  | fuel + 1, symbols => do
    if (← v_parser_is_at_end) then pure (some symbols)
    else if (← v_parser_match .Newline) then pure (some symbols)
    else do
      match (← v_parser_consume_kind .Identifier "Expected symbol") with
      | Option.none => pure Option.none
      | some imp_name_token => do
        let impAlias ←
          if (← v_parser_match_keyword .As) then do
            match (← v_parser_consume_kind .Identifier "Expected symbol alias") with
            | Option.none => pure (Option.none, true)
            | some imp_alias_token => pure (some imp_alias_token.lexeme, false)
          else pure (Option.none, false)
        match impAlias with
        | (_, true) => pure Option.none
        | (a, false) => do
          let symbols := symbols ++ [⟨imp_name_token.lexeme, a⟩]
          if (← v_parser_is_at_end) then pure (some symbols)
          else if (← v_parser_match_delimiter .Comma) then
            importSymbolsLoop fuel symbols
          else pure (some symbols)

/-- `v_parse_class_declaration` (ast.c, lines 1269-1489). -/
def v_parse_class_declaration : Nat → PM (Option VASTNode)
  | 0 => fun _ => .fuelOut
  | fuel + 1 => do
    match (← v_parser_consume_keyword .Class "Expected \"class\" keyword") with
    | Option.none => pure Option.none
    | some _ =>
      match (← v_parser_consume_kind .Identifier "Expected class name") with
      | Option.none => pure Option.none
      | some name_token => do
        let bases ←
          if (← v_parser_match_delimiter .LParen) then do
            let bases ←
              if !(← v_parser_check_delimiter .RParen) then
                classBasesLoop fuel Option.none
              else pure (some Option.none)
            match bases with
            | Option.none => pure (Option.none, true)
            | some bases =>
              match (← v_parser_consume_delimiter .RParen
                       "Expected \")\" after base classes") with
              | Option.none => pure (Option.none, true)
              | some _ => pure (bases, false)
          else pure (Option.none, false)
        match bases with
        | (_, true) => pure Option.none
        | (bases, false) =>
          match (← v_parser_consume_delimiter .Colon
                   "Expected \":\" after class definition header") with
          | Option.none => pure Option.none
          | some _ => do
            match (← v_parse_body fuel) with
            | Option.none => pure Option.none
            | some body_node =>
              match body_node with
              | .VASTBody stmts => do
                match (← classifyClassBodyStmts stmts Option.none Option.none) with
                | Option.none => pure Option.none
                | some (attributes, functions) =>
                  pure (some (.VASTClass name_token.lexeme bases attributes
                              functions Option.none))
              | _ => do
                v_parser_set_error
                  "Internal error: Class body parsing did not return VASTBody"
                pure Option.none

/-- The base-class loop of `v_parse_class_declaration` (ast.c, lines
1291-1314): `do { … } while(match(Comma))`, allocating the vector on
first use; the result is `some bases` on success (with `bases` still
NULL when no base was parsed, which cannot happen here) and `none` on
error. -/
def classBasesLoop : Nat → Option (List VASTNode) → PM (Option (Option (List VASTNode)))
  | 0, _ => fun _ => .fuelOut
  | fuel + 1, bases => do
    match (← v_parse_expression fuel) with
    | Option.none => pure Option.none
    | some base_expr => do
      let bases := some (bases.getD [] ++ [base_expr])
      if (← v_parser_match_delimiter .Comma) then classBasesLoop fuel bases
      else pure (some bases)

/-- `v_parse_function_declaration` (ast.c, lines 1491-1559). -/
def v_parse_function_declaration : Nat → PM (Option VASTNode)
  | 0 => fun _ => .fuelOut
  | fuel + 1 => do
    match (← v_parser_consume_keyword .Def "Expected \"def\" keyword") with
    | Option.none => pure Option.none
    | some _ =>
      match (← v_parser_consume_kind .Identifier "Expected function name") with
      | Option.none => pure Option.none
      | some name_token => do
        match (← v_parse_parameter_list fuel) with
        | Option.none => pure Option.none
        | some params => do
          let return_type ←
            if (← v_parser_match_delimiter .RightArrow) then do
              let rt ← v_parse_type_annot
              let p ← getPst
              if p.err.isSome then pure (rt, true) else pure (rt, false)
            else pure (VType.Unknown, false)
          match return_type with
          | (_, true) => pure Option.none
          | (return_type, false) =>
            match (← v_parser_consume_delimiter .Colon
                     "Expected \":\" after function signature") with
            | Option.none => pure Option.none
            | some _ => do
              match (← v_parse_body fuel) with
              | Option.none => pure Option.none
              | some body_node =>
                match body_node with
                | .VASTBody _ =>
                  pure (some (.VASTFunction name_token.lexeme params body_node
                              return_type Option.none))
                | _ => do
                  v_parser_set_error
                    "Internal error: Function body parsing did not return VASTBody"
                  pure Option.none

/-- `v_parse_body` (ast.c, lines 1561-1621). -/
def v_parse_body : Nat → PM (Option VASTNode)
  | 0 => fun _ => .fuelOut
  | fuel + 1 => do
    match (← v_parser_consume_kind .Newline
             "Expected newline after \":\" before block") with
    | Option.none => pure Option.none
    | some _ => do
      skipNewlinesLoop fuel
      match (← v_parser_consume_kind .Indent "Expected indent to start block") with
      | Option.none => pure Option.none
      | some _ => do
        match (← bodyStmtsLoop fuel []) with
        | Option.none => pure Option.none
        | some stmts => do
          if (← v_parser_is_at_end) then pure (some (.VASTBody stmts))
          else
            match (← v_parser_consume_kind .Dedent
                     "Expecting dedent at end of block") with
            | Option.none => pure Option.none
            | some _ => pure (some (.VASTBody stmts))

/-- The statement loop of `v_parse_body` (ast.c, lines 1581-1604). -/
def bodyStmtsLoop : Nat → List VASTNode → PM (Option (List VASTNode))
  | 0, _ => fun _ => .fuelOut
  | fuel + 1, stmts => do
    if (← v_parser_check .Dedent) then pure (some stmts)
    else if (← v_parser_is_at_end) then pure (some stmts)
    else do
      skipNewlinesLoop fuel
      if (← v_parser_check .Dedent) then pure (some stmts)
      else if (← v_parser_is_at_end) then pure (some stmts)
      else
        match (← v_parse_statement fuel) with
        | Option.none => pure Option.none
        | some stmt => bodyStmtsLoop fuel (stmts ++ [stmt])

/-- `v_parse_statement` (ast.c, lines 1623-1739). -/
def v_parse_statement : Nat → PM (Option VASTNode)
  | 0 => fun _ => .fuelOut
  | fuel + 1 => do
    skipNewlinesLoop fuel
    if (← v_parser_check_keyword .If) then v_parse_compound_statement fuel
    else if (← v_parser_check_keyword .For) then v_parse_compound_statement fuel
    else if (← v_parser_check_keyword .While) then v_parse_compound_statement fuel
    else if (← v_parser_check_keyword .Class) then v_parse_compound_statement fuel
    else if (← v_parser_check_keyword .Def) then v_parse_compound_statement fuel
    else if (← v_parser_check_keyword .With) then v_parse_compound_statement fuel
    else if (← v_parser_check_keyword .Try) then v_parse_compound_statement fuel
    else if (← v_parser_check_delimiter .At) then do
      match (← v_parse_decorator) with
      | Option.none => pure Option.none
      | some decorator => do
        if (← v_parser_check_keyword .Def) then do
          match (← v_parse_function_declaration fuel) with
          | Option.none => pure Option.none
          | some f =>
            match f with
            | .VASTFunction name params body rt _ =>
              pure (some (.VASTFunction name params body rt (some [decorator])))
            | _ => pure (some f)
        else if (← v_parser_check_keyword .Class) then do
          match (← v_parse_class_declaration fuel) with
          | Option.none => pure Option.none
          | some cls =>
            match cls with
            | .VASTClass name bases attrs funcs _ =>
              pure (some (.VASTClass name bases attrs funcs (some [decorator])))
            | _ => pure (some cls)
        else do
          v_parser_set_error "Expecting function or class definition after decorator"
          pure Option.none
    else do
      match (← v_parse_simple_statement fuel) with
      | Option.none => pure Option.none
      | some stmt => do
        if (← v_parser_match_delimiter .SemiColon) then do
          v_parser_set_error
            "Multiple statements on one line (using \";\") not fully supported yet"
          pure Option.none
        else do
          if (← v_parser_is_at_end) then pure (some stmt)
          else if (← v_parser_check .Newline) then do
            let _ ← v_parser_advance
            pure (some stmt)
          else if (← v_parser_check .Dedent) then pure (some stmt)
          else do
            v_parser_set_error "Expected newline or end of block after simple statement"
            pure Option.none

/-- `v_parse_compound_statement` (ast.c, lines 1741-1770). -/
def v_parse_compound_statement : Nat → PM (Option VASTNode)
  | 0 => fun _ => .fuelOut
  | fuel + 1 => do
    if (← v_parser_check_keyword .If) then v_parse_if_statement fuel
    else if (← v_parser_check_keyword .For) then v_parse_for_statement fuel
    else if (← v_parser_check_keyword .While) then v_parse_while_statement fuel
    else if (← v_parser_check_keyword .Def) then v_parse_function_declaration fuel
    else if (← v_parser_check_keyword .Class) then v_parse_class_declaration fuel
    else do
      v_parser_set_error "Internal error: Unhandled compound statement"
      pure Option.none

/-- `v_parse_simple_statement` (ast.c, lines 1772-1798). -/
def v_parse_simple_statement : Nat → PM (Option VASTNode)
  | 0 => fun _ => .fuelOut
  | fuel + 1 => do
    if (← v_parser_check_keyword .Return) then v_parse_return_statement fuel
    else if (← v_parser_check_keyword .Pass) then v_parse_pass_statement
    else if (← v_parser_check_keyword .Break) then v_parse_break_statement
    else if (← v_parser_check_keyword .Continue) then v_parse_continue_statement
    else v_parse_expression_statement fuel

/-- `v_parse_expression_statement` (ast.c, lines 1800-1901). -/
def v_parse_expression_statement : Nat → PM (Option VASTNode)
  | 0 => fun _ => .fuelOut
  | fuel + 1 => do
    match (← v_parse_expression fuel) with
    | Option.none => pure Option.none
    | some expr => do
      let annotated ←
        if (← v_parser_match_delimiter .Colon) then do
          match expr with
          | .VASTSymbol _ _ => pure (true, false)
          | .VASTAttributeAccess _ _ => pure (true, false)
          | .VASTSubscript _ _ => pure (true, false)
          | _ => do
            v_parser_set_error
              "Annotated assignment target must be a variable, attribute, or subscript"
            pure (true, true)
        else pure (false, false)
      match annotated with
      | (_, true) => pure Option.none
      | (true, false) => do
        let target_type ← v_parse_type_annot
        let p ← getPst
        if p.err.isSome then pure Option.none
        else do
          if (← v_parser_match_operator .Assign) then do
            match (← v_parse_expression fuel) with
            | Option.none => pure Option.none
            | some value =>
              pure (some (.VASTAssignment expr value .Assign target_type))
          else do
            v_parser_set_error "Expected \"=\" after type annotation in statement"
            pure Option.none
      | (false, false) => do
        let assign_op ← matchAssignOpChain
        if assign_op ≠ .Unknown then do
          match (← v_parse_expression fuel) with
          | Option.none => pure Option.none
          | some value =>
            pure (some (.VASTAssignment expr value assign_op VType.Unknown))
        else pure (some expr)

/-- `v_parse_if_statement` (ast.c, lines 1903-2045); the pointer-patched
elif chain is assembled by `buildElifChain`. -/
def v_parse_if_statement : Nat → PM (Option VASTNode)
  | 0 => fun _ => .fuelOut
  | fuel + 1 => do
    match (← v_parser_consume_keyword .If "Expected \"if\" keyword") with
    | Option.none => pure Option.none
    | some _ =>
      match (← v_parse_expression fuel) with
      | Option.none => pure Option.none
      | some condition =>
        match (← v_parser_consume_delimiter .Colon
                 "Expected \":\" after if condition") with
        | Option.none => pure Option.none
        | some _ => do
          match (← v_parse_body fuel) with
          | Option.none => pure Option.none
          | some body_node =>
            match body_node with
            | .VASTBody _ => do
              match (← elifLoop fuel []) with
              | Option.none => pure Option.none
              | some elifs => do
                let finalElse ←
                  if (← v_parser_match_keyword .Else) then do
                    match (← v_parser_consume_delimiter .Colon
                             "Expected \":\" after else keyword") with
                    | Option.none => pure (Option.none, true)
                    | some _ => do
                      match (← v_parse_body fuel) with
                      | Option.none => pure (Option.none, true)
                      | some final_else_body =>
                        match final_else_body with
                        | .VASTBody _ => pure (some final_else_body, false)
                        | _ => do
                          v_parser_set_error "Internal error while parsing else block"
                          pure (Option.none, true)
                  else pure (Option.none, false)
                match finalElse with
                | (_, true) => pure Option.none
                | (finalElse, false) =>
                  pure (some (.VASTIf condition body_node
                              (buildElifChain elifs finalElse)))
            | _ => pure Option.none

/-- The `while(match_keyword(Elif))` loop of `v_parse_if_statement`
(ast.c, lines 1940-2000), collecting each elif's condition and body in
order. -/
def elifLoop : Nat → List (VASTNode × VASTNode) →
    PM (Option (List (VASTNode × VASTNode)))
  | 0, _ => fun _ => .fuelOut
  | fuel + 1, elifs => do
    if (← v_parser_match_keyword .Elif) then do
      match (← v_parse_expression fuel) with
      | Option.none => pure Option.none
      | some elif_condition =>
        match (← v_parser_consume_delimiter .Colon
                 "Expected \":\" after elif condition") with
        | Option.none => pure Option.none
        | some _ => do
          match (← v_parse_body fuel) with
          | Option.none => pure Option.none
          | some elif_body_node =>
            match elif_body_node with
            | .VASTBody _ =>
              elifLoop fuel (elifs ++ [(elif_condition, elif_body_node)])
            | _ => do
              v_parser_set_error "Internal error while parsing elif block"
              pure Option.none
    else pure (some elifs)

/-- `v_parse_for_statement` (ast.c, lines 2047-2102). -/
def v_parse_for_statement : Nat → PM (Option VASTNode)
  | 0 => fun _ => .fuelOut
  | fuel + 1 => do
    match (← v_parser_consume_keyword .For "Expected \"for\" keyword") with
    | Option.none => pure Option.none
    | some _ =>
      match (← v_parse_expression fuel) with
      | Option.none => pure Option.none
      | some target =>
        match (← v_parser_consume_keyword .In
                 "Expected \"in\" keyword after for target") with
        | Option.none => pure Option.none
        | some _ =>
          match (← v_parse_expression fuel) with
          | Option.none => pure Option.none
          | some iterable =>
            match (← v_parser_consume_delimiter .Colon
                     "Expected \":\" after for statement header") with
            | Option.none => pure Option.none
            | some _ => do
              match (← v_parse_body fuel) with
              | Option.none => pure Option.none
              | some body_node =>
                match body_node with
                | .VASTBody _ =>
                  pure (some (.VASTFor false (some target) iterable body_node))
                | _ => do
                  v_parser_set_error "Internal error while parsing for block"
                  pure Option.none

/-- `v_parse_while_statement` (ast.c, lines 2104-2142). -/
def v_parse_while_statement : Nat → PM (Option VASTNode)
  | 0 => fun _ => .fuelOut
  | fuel + 1 => do
    match (← v_parser_consume_keyword .While "Expected \"while\" keyword") with
    | Option.none => pure Option.none
    | some _ =>
      match (← v_parse_expression fuel) with
      | Option.none => pure Option.none
      | some condition =>
        match (← v_parser_consume_delimiter .Colon
                 "Expected \":\" after while condition") with
        | Option.none => pure Option.none
        | some _ => do
          match (← v_parse_body fuel) with
          | Option.none => pure Option.none
          | some body_node =>
            match body_node with
            | .VASTBody _ =>
              pure (some (.VASTFor true Option.none condition body_node))
            | _ => do
              v_parser_set_error "Internal error while parsing while block"
              pure Option.none

/-- `v_parse_return_statement` (ast.c, lines 2144-2166). -/
def v_parse_return_statement : Nat → PM (Option VASTNode)
  | 0 => fun _ => .fuelOut
  | fuel + 1 => do
    match (← v_parser_consume_keyword .Return "Expected \"return\" keyword") with
    | Option.none => pure Option.none
    | some _ => do
      let hasValue ← do
        let c1 ← v_parser_check .Newline
        let c2 ← v_parser_check_delimiter .SemiColon
        let c3 ← v_parser_check .Dedent
        let c4 ← v_parser_is_at_end
        pure (!c1 && !c2 && !c3 && !c4)
      if hasValue then do
        match (← v_parse_expression fuel) with
        | Option.none => pure Option.none
        | some value => pure (some (.VASTReturn (some value)))
      else pure (some (.VASTReturn Option.none))

/-- `v_parse_expression` (ast.c, lines 2198-2208). -/
def v_parse_expression : Nat → PM (Option VASTNode)
  | 0 => fun _ => .fuelOut
  | fuel + 1 => do
    if (← v_parser_check_keyword .Lambda) then do
      v_parser_set_error "Lambda expressions not implemented yet"
      pure Option.none
    else v_parse_ternary fuel

/-- `v_parse_ternary` (ast.c, lines 2210-2251). -/
def v_parse_ternary : Nat → PM (Option VASTNode)
  | 0 => fun _ => .fuelOut
  | fuel + 1 => do
    match (← v_parse_logical_or fuel) with
    | Option.none => pure Option.none
    | some expr_if_true => do
      if (← v_parser_match_keyword .If) then do
        match (← v_parse_logical_or fuel) with
        | Option.none => pure Option.none
        | some condition =>
          match (← v_parser_consume_keyword .Else
                   "Expected \"else\" after \"if\" in ternary expression") with
          | Option.none => pure Option.none
          | some _ => do
            match (← v_parse_expression fuel) with
            | Option.none => pure Option.none
            | some expr_if_false =>
              pure (some (.VASTTernOp condition expr_if_true expr_if_false))
      else pure (some expr_if_true)

/-- `v_parse_logical_or` (ast.c, lines 2253-2276). -/
def v_parse_logical_or : Nat → PM (Option VASTNode)
  | 0 => fun _ => .fuelOut
  | fuel + 1 => do
    match (← v_parse_logical_and fuel) with
    | Option.none => pure Option.none
    | some left => logicalOrLoop fuel left

/-- The `while(match_keyword(Or))` loop of `v_parse_logical_or`. -/
def logicalOrLoop : Nat → VASTNode → PM (Option VASTNode)
  | 0, _ => fun _ => .fuelOut
  | fuel + 1, left => do
    if (← v_parser_match_keyword .Or) then do
      match (← v_parse_logical_and fuel) with
      | Option.none => pure Option.none
      | some right => logicalOrLoop fuel (.VASTBinOp .LogicalOr left right)
    else pure (some left)

/-- `v_parse_logical_and` (ast.c, lines 2278-2300). -/
def v_parse_logical_and : Nat → PM (Option VASTNode)
  | 0 => fun _ => .fuelOut
  | fuel + 1 => do
    match (← v_parse_comparison fuel) with
    | Option.none => pure Option.none
    | some left => logicalAndLoop fuel left

/-- The `while(match_keyword(And))` loop of `v_parse_logical_and`. -/
def logicalAndLoop : Nat → VASTNode → PM (Option VASTNode)
  | 0, _ => fun _ => .fuelOut
  | fuel + 1, left => do
    if (← v_parser_match_keyword .And) then do
      match (← v_parse_comparison fuel) with
      | Option.none => pure Option.none
      | some right => logicalAndLoop fuel (.VASTBinOp .LogicalAnd left right)
    else pure (some left)

/-- `v_parse_comparison` (ast.c, lines 2302-2415): a single comparison,
with `is not`/`not in` assembled from adjacent keywords and a partial
chained-comparison rejection that only looks for `==`, `!=` or a
following `is`/`in`/`not` keyword. -/
def v_parse_comparison : Nat → PM (Option VASTNode)
  | 0 => fun _ => .fuelOut
  | fuel + 1 => do
    match (← v_parse_bitwise_or fuel) with
    | Option.none => pure Option.none
    | some left => do
      match (← v_parser_peek) with
      | Option.none => pure (some left)
      | some token => do
        let opRes ←
          if token.kind == .Operator then do
            let current_op := tokTypeAsOp token.type
            if current_op = .ComparatorEquals ∨ current_op = .ComparatorNotEquals ∨
               current_op = .ComparatorLessThan ∨ current_op = .ComparatorLessEqualsThan ∨
               current_op = .ComparatorGreaterThan ∨
               current_op = .ComparatorGreaterEqualsThan then do
              let _ ← v_parser_advance
              pure (current_op, false)
            else pure (VOperator.Unknown, false)
          else if token.kind == .Keyword then do
            let current_kw := tokTypeAsKw token.type
            if current_kw = .Is then do
              let _ ← v_parser_advance
              if (← v_parser_match_keyword .Not) then pure (VOperator.IdentityIsNot, false)
              else pure (VOperator.IdentityIs, false)
            else if current_kw = .In then do
              let _ ← v_parser_advance
              pure (VOperator.MembershipIn, false)
            else if current_kw = .Not then do
              let _ ← v_parser_advance
              match (← v_parser_consume_keyword .In
                       "Expected \"in\" after \"not\" for \"not in\" operator") with
              | Option.none => pure (VOperator.Unknown, true)
              | some _ => pure (VOperator.MembershipNotIn, false)
            else pure (VOperator.Unknown, false)
          else pure (VOperator.Unknown, false)
        match opRes with
        | (_, true) => pure Option.none
        | (op, false) =>
          if op ≠ .Unknown then do
            match (← v_parse_bitwise_or fuel) with
            | Option.none => pure Option.none
            | some right => do
              let next_token ← v_parser_peek
              let chained : Bool ←
                match next_token with
                | some nt =>
                  if nt.kind == .Operator || nt.kind == .Keyword then do
                    let next_op_kind :=
                      if nt.kind == .Operator then tokTypeAsOp nt.type
                      else VOperator.Unknown
                    let kIs ← v_parser_check_keyword .Is
                    let kIn ← v_parser_check_keyword .In
                    let kNot ← v_parser_check_keyword .Not
                    pure (next_op_kind == .ComparatorEquals ||
                          next_op_kind == .ComparatorNotEquals ||
                          kIs || kIn || kNot)
                  else pure false
                | Option.none => pure false
              if chained then do
                v_parser_set_error "Chained comparisons not fully supported yet"
                pure Option.none
              else pure (some (.VASTBinOp op left right))
          else pure (some left)

/-- The operand dispatch for `v_parse_binary_op_left_assoc`; in the C
the operand parser is passed as a function pointer (calling through the
pointer costs one fuel unit here). -/
def operandParse : Nat → OperandLevel → PM (Option VASTNode)
  | 0, _ => fun _ => .fuelOut
  | fuel + 1, .bitwiseXor => v_parse_bitwise_xor fuel
  | fuel + 1, .bitwiseAnd => v_parse_bitwise_and fuel
  | fuel + 1, .shift => v_parse_shift fuel
  | fuel + 1, .term => v_parse_term fuel
  | fuel + 1, .factor => v_parse_factor fuel
  | fuel + 1, .unary => v_parse_unary fuel

/-- `v_parse_binary_op_left_assoc` (ast.c, lines 2421-2473). -/
def v_parse_binary_op_left_assoc : Nat → OperandLevel → List VOperator →
    PM (Option VASTNode)
  | 0, _, _ => fun _ => .fuelOut
  | fuel + 1, level, ops => do
    match (← operandParse fuel level) with
    | Option.none => pure Option.none
    | some left => binOpLeftLoop fuel level ops left

/-- The operator loop of `v_parse_binary_op_left_assoc` (ast.c, lines
2433-2470). -/
def binOpLeftLoop : Nat → OperandLevel → List VOperator → VASTNode →
    PM (Option VASTNode)
  | 0, _, _, _ => fun _ => .fuelOut
  | fuel + 1, level, ops, left => do
    match (← v_parser_peek) with
    | Option.none => pure (some left)
    | some token =>
      if token.kind != .Operator then pure (some left)
      else do
        let current_op := tokTypeAsOp token.type
        if ops.contains current_op then do
          let _ ← v_parser_advance
          match (← operandParse fuel level) with
          | Option.none => pure Option.none
          | some right =>
            binOpLeftLoop fuel level ops (.VASTBinOp current_op left right)
        else pure (some left)

/-- `v_parse_bitwise_or` (ast.c, lines 2475-2479). -/
def v_parse_bitwise_or : Nat → PM (Option VASTNode)
  | 0 => fun _ => .fuelOut
  | fuel + 1 => v_parse_binary_op_left_assoc fuel .bitwiseXor [.BitwiseOr]

/-- `v_parse_bitwise_xor` (ast.c, lines 2481-2485). -/
def v_parse_bitwise_xor : Nat → PM (Option VASTNode)
  | 0 => fun _ => .fuelOut
  | fuel + 1 => v_parse_binary_op_left_assoc fuel .bitwiseAnd [.BitwiseXor]

/-- `v_parse_bitwise_and` (ast.c, lines 2487-2491). -/
def v_parse_bitwise_and : Nat → PM (Option VASTNode)
  | 0 => fun _ => .fuelOut
  | fuel + 1 => v_parse_binary_op_left_assoc fuel .shift [.BitwiseAnd]

/-- `v_parse_shift` (ast.c, lines 2493-2497). -/
def v_parse_shift : Nat → PM (Option VASTNode)
  | 0 => fun _ => .fuelOut
  | fuel + 1 =>
    v_parse_binary_op_left_assoc fuel .term [.BitwiseLShift, .BitwiseRShift]

/-- `v_parse_term` (ast.c, lines 2499-2503). -/
def v_parse_term : Nat → PM (Option VASTNode)
  | 0 => fun _ => .fuelOut
  | fuel + 1 =>
    v_parse_binary_op_left_assoc fuel .factor [.Addition, .Subtraction]

/-- `v_parse_factor` (ast.c, lines 2505-2514). -/
def v_parse_factor : Nat → PM (Option VASTNode)
  | 0 => fun _ => .fuelOut
  | fuel + 1 =>
    v_parse_binary_op_left_assoc fuel .unary
      [.Multiplication, .Division, .Modulus, .FloorDivision]

/-- `v_parse_unary` (ast.c, lines 2516-2550). -/
def v_parse_unary : Nat → PM (Option VASTNode)
  | 0 => fun _ => .fuelOut
  | fuel + 1 => do
    let op ←
      if (← v_parser_match_operator .Addition) then pure VOperator.Addition
      else if (← v_parser_match_operator .Subtraction) then pure VOperator.Subtraction
      else if (← v_parser_match_operator .BitwiseNot) then pure VOperator.BitwiseNot
      else if (← v_parser_match_keyword .Not) then pure VOperator.LogicalNot
      else pure VOperator.Unknown
    if op ≠ .Unknown then do
      match (← v_parse_unary fuel) with
      | Option.none => pure Option.none
      | some operand => pure (some (.VASTUnOp op operand))
    else v_parse_power fuel

/-- `v_parse_power` (ast.c, lines 2552-2575): `**` with the right
operand re-entering at the unary level. -/
def v_parse_power : Nat → PM (Option VASTNode)
  | 0 => fun _ => .fuelOut
  | fuel + 1 => do
    match (← v_parse_primary fuel) with
    | Option.none => pure Option.none
    | some left => do
      if (← v_parser_match_operator .Exponentiation) then do
        match (← v_parse_unary fuel) with
        | Option.none => pure Option.none
        | some right => pure (some (.VASTBinOp .Exponentiation left right))
      else pure (some left)

/-- `v_parse_primary` (ast.c, lines 2577-2622). -/
def v_parse_primary : Nat → PM (Option VASTNode)
  | 0 => fun _ => .fuelOut
  | fuel + 1 => do
    match (← v_parse_atom fuel) with
    | Option.none => pure Option.none
    | some node => postfixLoop fuel node

/-- The postfix loop of `v_parse_primary` (ast.c, lines 2586-2619). -/
def postfixLoop : Nat → VASTNode → PM (Option VASTNode)
  | 0, _ => fun _ => .fuelOut
  | fuel + 1, node => do
    if (← v_parser_check_delimiter .LParen) then do
      match (← v_parse_function_call fuel node) with
      | Option.none => pure Option.none
      | some node2 => postfixLoop fuel node2
    else if (← v_parser_check_delimiter .Dot) then do
      match (← v_parse_attribute_access node) with
      | Option.none => pure Option.none
      | some node2 => postfixLoop fuel node2
    else if (← v_parser_check_delimiter .LBracket) then do
      match (← v_parse_subscript fuel node) with
      | Option.none => pure Option.none
      | some node2 => postfixLoop fuel node2
    else pure (some node)

/-- `v_parse_atom` (ast.c, lines 2624-2727); note the final fallthrough
returns NULL *without* recording an error. -/
def v_parse_atom : Nat → PM (Option VASTNode)
  | 0 => fun _ => .fuelOut
  | fuel + 1 => do
    match (← v_parser_peek) with
    | Option.none => do
      v_parser_set_error "Unexpected end of input looking for atom"
      pure Option.none
    | some token => do
      if token.kind == .Literal ∨
         (token.kind == .Keyword ∧
          (token.type == .kw .True_ ∨ token.type == .kw .False_ ∨
           token.type == .kw .None_)) then
        v_parse_literal fuel
      else if token.kind == .Identifier then v_parse_variable
      else if (← v_parser_check_delimiter .LBracket) then v_parse_literal fuel
      else if (← v_parser_check_delimiter .LBrace) then v_parse_literal fuel
      else if (← v_parser_match_delimiter .LParen) then do
        if (← v_parser_match_delimiter .RParen) then
          pure (some (.VASTLiteralTuple []))
        else do
          match (← v_parse_expression fuel) with
          | Option.none => pure Option.none
          | some node => do
            let node ←
              if (← v_parser_match_delimiter .Comma) then do
                match (← parenTupleLoop fuel [node]) with
                | Option.none => pure Option.none
                | some elements => pure (some (VASTNode.VASTLiteralTuple elements))
              else pure (some node)
            match node with
            | Option.none => pure Option.none
            | some node =>
              match (← v_parser_consume_delimiter .RParen
                       "Expected \")\" to close parenthesized expression or tuple") with
              | Option.none => pure Option.none
              | some _ => pure (some node)
      else pure Option.none

/-- The tuple-element loop of the parenthesized form (ast.c, lines
2671-2704). -/
def parenTupleLoop : Nat → List VASTNode → PM (Option (List VASTNode))
  | 0, _ => fun _ => .fuelOut
  | fuel + 1, elements => do
    if (← v_parser_check_delimiter .RParen) then pure (some elements)
    else do
      match (← v_parse_expression fuel) with
      | Option.none => pure Option.none
      | some elem => do
        let elements := elements ++ [elem]
        if (← v_parser_match_delimiter .Comma) then parenTupleLoop fuel elements
        else do
          if (← v_parser_check_delimiter .RParen) then pure (some elements)
          else do
            v_parser_set_error "Expected \",\" or \")\" in tuple display"
            pure Option.none

/-- `v_parse_literal` (ast.c, lines 2729-2994). -/
def v_parse_literal : Nat → PM (Option VASTNode)
  | 0 => fun _ => .fuelOut
  | fuel + 1 => do
    match (← v_parser_peek) with
    | Option.none => do
      v_parser_set_error "Unexpected end of input looking for literal"
      pure Option.none
    | some token => do
      if (← v_parser_match_keyword .True_) then pure (some (.VASTLiteralBool true))
      else if (← v_parser_match_keyword .False_) then
        pure (some (.VASTLiteralBool false))
      else if (← v_parser_match_keyword .None_) then pure (some .VASTLiteralNone)
      else if (← v_parser_match_delimiter .LBracket) then do
        let elements ←
          if !(← v_parser_check_delimiter .RBracket) then listElemsLoop fuel []
          else pure (some [])
        match elements with
        | Option.none => pure Option.none
        | some elements =>
          match (← v_parser_consume_delimiter .RBracket
                   "Expected \"]\" after list elements") with
          | Option.none => pure Option.none
          | some _ => pure (some (.VASTLiteralList elements))
      else if (← v_parser_match_delimiter .LBrace) then do
        let kv ←
          if !(← v_parser_check_delimiter .RBrace) then do
            match (← v_parse_expression fuel) with
            | Option.none => pure Option.none
            | some first_item => do
              if (← v_parser_match_delimiter .Colon) then do
                match (← v_parse_expression fuel) with
                | Option.none => pure Option.none
                | some first_value =>
                  match (← dictPairsLoop fuel [first_item] [first_value]) with
                  | Option.none => pure Option.none
                  | some (keys, values) => pure (some (keys, some values))
              else do
                match (← setElemsLoop fuel [first_item]) with
                | Option.none => pure Option.none
                | some elements => pure (some (elements, Option.none))
          else pure (some ([], Option.none))
        match kv with
        | Option.none => pure Option.none
        | some (keys_or_elements, values) =>
          match (← v_parser_consume_delimiter .RBrace
                   "Expected \"\x7d\" after dictionary or set elements") with
          | Option.none => pure Option.none
          | some _ =>
            match values with
            | some values => pure (some (.VASTLiteralDict keys_or_elements values))
            | Option.none =>
              if keys_or_elements.length = 0 then
                pure (some (.VASTLiteralDict [] []))
              else pure (some (.VASTLiteralSet keys_or_elements))
      else if token.kind == .Literal then do
        let _ ← v_parser_advance
        match token.type with
        | .lit .Integer => do
          let (val, consumed) := strtollBase0 token.lexeme.toList
          if consumed ≠ token.lexeme.toList.length then do
            v_parser_set_error "Invalid integer literal format"
            pure Option.none
          else pure (some (.VASTLiteralInt val))
        | .lit .Float => do
          let consumed := strtodConsumed token.lexeme.toList
          if consumed ≠ token.lexeme.toList.length then do
            v_parser_set_error "Invalid float literal format"
            pure Option.none
          else pure (some (.VASTLiteralFloat token.lexeme))
        | .lit .String => pure (some (.VASTLiteralString token.lexeme))
        | .lit .UnicodeString => pure (some (.VASTLiteralString token.lexeme))
        | .lit .RawString => pure (some (.VASTLiteralString token.lexeme))
        | _ => do
          v_parser_set_error "Internal error: Unknown VLiteral token type from lexer"
          pure Option.none
      else do
        v_parser_set_error
          "Expected a literal value (number, string, boolean, None, list, dict, set)"
        pure Option.none

/-- The list-element loop of `v_parse_literal` (ast.c, lines 2757-2785). -/
def listElemsLoop : Nat → List VASTNode → PM (Option (List VASTNode))
  | 0, _ => fun _ => .fuelOut
  | fuel + 1, elements => do
    if (← v_parser_check_delimiter .RBracket) then pure (some elements)
    else do
      match (← v_parse_expression fuel) with
      | Option.none => pure Option.none
      | some elem => do
        let elements := elements ++ [elem]
        if (← v_parser_match_delimiter .Comma) then listElemsLoop fuel elements
        else do
          if (← v_parser_check_delimiter .RBracket) then pure (some elements)
          else do
            v_parser_set_error "Expected \",\" or \"]\" in list display"
            pure Option.none

/-- The dict-pair loop of `v_parse_literal` (ast.c, lines 2837-2875). -/
def dictPairsLoop : Nat → List VASTNode → List VASTNode →
    PM (Option (List VASTNode × List VASTNode))
  | 0, _, _ => fun _ => .fuelOut
  | fuel + 1, keys, values => do
    if (← v_parser_match_delimiter .Comma) then do
      if (← v_parser_check_delimiter .RBrace) then pure (some (keys, values))
      else do
        match (← v_parse_expression fuel) with
        | Option.none => pure Option.none
        | some key =>
          match (← v_parser_consume_delimiter .Colon
                   "Expected \":\" after dictionary key") with
          | Option.none => pure Option.none
          | some _ => do
            match (← v_parse_expression fuel) with
            | Option.none => pure Option.none
            | some val => dictPairsLoop fuel (keys ++ [key]) (values ++ [val])
    else pure (some (keys, values))

/-- The set-element loop of `v_parse_literal` (ast.c, lines 2879-2896). -/
def setElemsLoop : Nat → List VASTNode → PM (Option (List VASTNode))
  | 0, _ => fun _ => .fuelOut
  | fuel + 1, elements => do
    if (← v_parser_match_delimiter .Comma) then do
      if (← v_parser_check_delimiter .RBrace) then pure (some elements)
      else do
        match (← v_parse_expression fuel) with
        | Option.none => pure Option.none
        | some elem => setElemsLoop fuel (elements ++ [elem])
    else pure (some elements)

/-- `v_parse_function_call` (ast.c, lines 3160-3201). -/
def v_parse_function_call : Nat → VASTNode → PM (Option VASTNode)
  | 0, _ => fun _ => .fuelOut
  | fuel + 1, callable_expr => do
    match (← v_parser_consume_delimiter .LParen
             "Expected \"(\" to start function call") with
    | Option.none => pure Option.none
    | some _ => do
      let (args, kwarg_names, kwarg_values) ← v_parse_argument_list fuel
      match (← v_parser_consume_delimiter .RParen
               "Expected \")\" to end function call") with
      | Option.none => pure Option.none
      | some _ =>
        pure (some (.VASTFCall callable_expr args kwarg_names kwarg_values))

/-- `v_parse_argument_list` (ast.c, lines 3010-3158): the triple of the
argument vector and the two parallel kwarg vectors, each possibly NULL;
on an error path the C returns NULL and leaves the caller's NULL out
parameters untouched, giving the all-NULL triple with the error latch
set. -/
def v_parse_argument_list : Nat →
    PM (Option (List VASTNode) × Option (List String) × Option (List VASTNode))
  | 0 => fun _ => .fuelOut
  | fuel + 1 => do
    if !(← v_parser_check_delimiter .RParen) then
      argListLoop fuel Option.none Option.none Option.none false
    else pure (Option.none, Option.none, Option.none)

/-- The argument loop of `v_parse_argument_list` (ast.c, lines 3020-3151). -/
def argListLoop : Nat → Option (List VASTNode) → Option (List String) →
    Option (List VASTNode) → Bool →
    PM (Option (List VASTNode) × Option (List String) × Option (List VASTNode))
  | 0, _, _, _, _ => fun _ => .fuelOut
  | fuel + 1, args, kwarg_names, kwarg_values, parsing_kwargs => do
    if (← v_parser_check_delimiter .RParen) then
      pure (args, kwarg_names, kwarg_values)
    else do
      let possible_kwarg_name ← v_parser_peek
      let p ← getPst
      let is_kwarg : Bool :=
        match possible_kwarg_name with
        | some pk =>
          pk.kind == .Identifier &&
          (match p.tokens.get? (p.current + 1) with
           | some next_token =>
             next_token.kind == .Operator && next_token.type == .op .Assign
           | Option.none => false)
        | Option.none => false
      let step ←
        if is_kwarg then do
          let _ ← v_parser_advance
          let _ ← v_parser_advance
          let name := (possible_kwarg_name.map VToken.lexeme).getD ""
          match (← v_parse_expression fuel) with
          | Option.none => pure Option.none
          | some value =>
            pure (some (args, some (kwarg_names.getD [] ++ [name]),
                        some (kwarg_values.getD [] ++ [value]), true))
        else do
          if parsing_kwargs then do
            v_parser_set_error "Positional argument cannot follow keyword argument"
            pure Option.none
          else do
            match (← v_parse_expression fuel) with
            | Option.none => pure Option.none
            | some expr =>
              pure (some (some (args.getD [] ++ [expr]), kwarg_names,
                          kwarg_values, parsing_kwargs))
      match step with
      | Option.none => pure (Option.none, Option.none, Option.none)
      | some (args, kwarg_names, kwarg_values, parsing_kwargs) => do
        if (← v_parser_match_delimiter .Comma) then
          argListLoop fuel args kwarg_names kwarg_values parsing_kwargs
        else do
          if (← v_parser_check_delimiter .RParen) then
            pure (args, kwarg_names, kwarg_values)
          else do
            v_parser_set_error "Expected \",\" or \")\" in argument list"
            pure (Option.none, Option.none, Option.none)

/-- `v_parse_subscript` (ast.c, lines 3225-3270): try a slice first; a
NULL slice without a recorded error falls back to a plain expression
*from the position the failed slice attempt left behind*. -/
def v_parse_subscript : Nat → VASTNode → PM (Option VASTNode)
  | 0, _ => fun _ => .fuelOut
  | fuel + 1, object_expr => do
    match (← v_parser_consume_delimiter .LBracket
             "Expected \"[\" to start subscript") with
    | Option.none => pure Option.none
    | some _ => do
      let slice_node ←
        match (← v_parse_slice fuel) with
        | some s => pure (some s)
        | Option.none => do
          let p ← getPst
          if p.err.isSome then pure Option.none
          else do
            match (← v_parse_expression fuel) with
            | some s => pure (some s)
            | Option.none => do
              let p2 ← getPst
              if p2.err.isNone then
                v_parser_set_error "Expected index expression or slice in subscript"
              pure Option.none
      match slice_node with
      | Option.none => pure Option.none
      | some slice_node =>
        match (← v_parser_consume_delimiter .RBracket
                 "Expected \"]\" to end subscript") with
        | Option.none => pure Option.none
        | some _ => pure (some (.VASTSubscript object_expr slice_node))

/-- `v_parse_slice` (ast.c, lines 3272-3327). -/
def v_parse_slice : Nat → PM (Option VASTNode)
  | 0 => fun _ => .fuelOut
  | fuel + 1 => do
    let start ←
      if !(← v_parser_check_delimiter .Colon) &&
         !(← v_parser_check_delimiter .RBracket) then do
        match (← v_parse_expression fuel) with
        | Option.none => pure Option.none
        | some s => pure (some (some s))
      else pure (some Option.none)
    match start with
    | Option.none => pure Option.none
    | some start => do
      if !(← v_parser_match_delimiter .Colon) then pure Option.none
      else do
        let stop ←
          if !(← v_parser_check_delimiter .Colon) &&
             !(← v_parser_check_delimiter .RBracket) then do
            match (← v_parse_expression fuel) with
            | Option.none => pure Option.none
            | some s => pure (some (some s))
          else pure (some Option.none)
        match stop with
        | Option.none => pure Option.none
        | some stop => do
          let step ←
            if (← v_parser_match_delimiter .Colon) then do
              if !(← v_parser_check_delimiter .RBracket) then do
                match (← v_parse_expression fuel) with
                | Option.none => pure Option.none
                | some s => pure (some (some s))
              else pure (some Option.none)
            else pure (some Option.none)
          match step with
          | Option.none => pure Option.none
          | some step => pure (some (.VASTSlice start stop step))

/-- `v_parse_parameter_list` (ast.c, lines 3374-3481). -/
def v_parse_parameter_list : Nat → PM (Option (List VASTNode))
  | 0 => fun _ => .fuelOut
  | fuel + 1 => do
    match (← v_parser_consume_delimiter .LParen
             "Expected \"(\" to start parameter list") with
    | Option.none => pure Option.none
    | some _ => do
      let params ←
        if !(← v_parser_check_delimiter .RParen) then paramListLoop fuel [] false
        else pure (some [])
      match params with
      | Option.none => pure Option.none
      | some params =>
        match (← v_parser_consume_delimiter .RParen
                 "Expected \")\" to end parameter list") with
        | Option.none => pure Option.none
        | some _ => pure (some params)

/-- The parameter loop of `v_parse_parameter_list` (ast.c, lines
3390-3469). -/
def paramListLoop : Nat → List VASTNode → Bool → PM (Option (List VASTNode))
  | 0, _, _ => fun _ => .fuelOut
  | fuel + 1, params, parsing_defaults => do
    if (← v_parser_check_delimiter .RParen) then pure (some params)
    else do
      match (← v_parser_consume_kind .Identifier "Expected parameter name") with
      | Option.none => pure Option.none
      | some param_token => do
        let tyRes ←
          if (← v_parser_match_delimiter .Colon) then do
            let ty ← v_parse_type_annot
            let p ← getPst
            if p.err.isSome then pure (ty, true) else pure (ty, false)
          else pure (VType.Unknown, false)
        match tyRes with
        | (_, true) => pure Option.none
        | (param_type, false) => do
          let defRes ←
            if (← v_parser_match_operator .Assign) then do
              match (← v_parse_expression fuel) with
              | Option.none => pure (Option.none, true, true)
              | some dv => pure (some dv, true, false)
            else do
              if parsing_defaults then do
                v_parser_set_error "Non-default argument follows default argument"
                pure (Option.none, parsing_defaults, true)
              else pure (Option.none, parsing_defaults, false)
          match defRes with
          | (_, _, true) => pure Option.none
          | (default_value, parsing_defaults, false) => do
            let params := params ++
              [VASTNode.VASTParameter param_token.lexeme param_type default_value]
            if (← v_parser_match_delimiter .Comma) then
              paramListLoop fuel params parsing_defaults
            else do
              if (← v_parser_check_delimiter .RParen) then pure (some params)
              else do
                v_parser_set_error "Expected \",\" or \")\" in parameter list"
                pure Option.none

end

/- ===================== AST entry point (ast.c, lines 3483-3506) ===================== -/

/-- Embedding of `VAST` (ast.h, lines 295-299). -/
structure VAST where
  root : Option VASTNode
  error : Option String
deriving Repr

/-- Observable outcome of `v_ast_from_tokens`: the returned flag and the
`VAST` contents, or a crash / out-of-fuel marker. -/
inductive ASTOutcome where
  | result (success : Bool) (ast : VAST)
  | crash
  | fuelOut
deriving Repr

/--
Embedding of `v_ast_from_tokens` (ast.c, lines 3483-3506) for non-NULL
`ast`/`tokens` arguments (a NULL argument just returns false): parse a
Source from a fresh parser over the tokens, store the root, and return
false with the recorded error exactly when the error latch was set.
-/
def v_ast_from_tokens (fuel : Nat) (tokens : List VToken) : ASTOutcome :=
  match v_parse_source fuel {tokens := tokens, current := 0, err := Option.none} with
  | .ok root p =>
    if p.err.isSome then .result false {root := root, error := p.err}
    else .result true {root := root, error := Option.none}
  | .crash => .crash
  | .fuelOut => .fuelOut

/-- Observable outcome of running `v_parse_expression` on a fresh
parser: the produced node (NULL possible) plus the error latch. -/
inductive ExprOutcome where
  | result (node : Option VASTNode) (err : Option String)
  | crash
  | fuelOut
deriving Repr

/-- Run `v_parse_expression` on a fresh parser over `tokens`. -/
def runParseExpression (fuel : Nat) (tokens : List VToken) : ExprOutcome :=
  match v_parse_expression fuel {tokens := tokens, current := 0, err := Option.none} with
  | .ok node p => .result node p.err
  | .crash => .crash
  | .fuelOut => .fuelOut

/- ===================== token builders for concrete runs ===================== -/

/-- An operator token as the lexer would emit it (lexeme spelling is
irrelevant to the parser for operators). -/
def opTok (o : VOperator) : VToken :=
  {lexeme := "", kind := .Operator, type := .op o, position := 0, line := 1}

/-- A keyword token. -/
def kwTok (k : VKeyword) : VToken :=
  {lexeme := "", kind := .Keyword, type := .kw k, position := 0, line := 1}

/-- A delimiter token. -/
def delimTok (d : VDelimiter) : VToken :=
  {lexeme := "", kind := .Delimiter, type := .delim d, position := 0, line := 1}

/-- An integer literal token with the given lexeme. -/
def intTok (s : String) : VToken :=
  {lexeme := s, kind := .Literal, type := .lit .Integer, position := 0, line := 1}

/-- An identifier token with the given lexeme. -/
def identTok (s : String) : VToken :=
  {lexeme := s, kind := .Identifier, type := .none, position := 0, line := 1}

/-- A newline token. -/
def nlTok : VToken :=
  {lexeme := "", kind := .Newline, type := .none, position := 0, line := 1}

/-- An indent token. -/
def indentTok : VToken :=
  {lexeme := "    ", kind := .Indent, type := .none, position := 0, line := 1}

/-- A dedent token. -/
def dedentTok : VToken :=
  {lexeme := "", kind := .Dedent, type := .none, position := 0, line := 1}

/-- The EOF token the lexer appends. -/
def eofTok : VToken :=
  {lexeme := "", kind := .EOF, type := .none, position := 0, line := 1}

set_option smartUnfolding false in
/--
C2 counterexample: on the token stream `[":", EOF]` the parser reaches
the fallthrough of `v_parse_atom` (ast.c, line 2726), which returns
NULL without recording an error; the NULL propagates to
`v_parse_source` and `v_ast_from_tokens` reports *success* with a NULL
root and no diagnostic, contradicting the claim that success implies a
non-null Source root.
-/
theorem c2_success_with_null_root :
    v_ast_from_tokens 64 [delimTok .Colon, eofTok] =
      .result true {root := Option.none, error := Option.none} := rfl

/--
C2 amended: whenever `v_ast_from_tokens` returns, failure carries the
first recorded error string and success carries none — but success does
not guarantee a non-null root (see the counterexample for a token
stream accepted with a NULL root).
-/
theorem c2_failure_iff_error_recorded :
    ∀ (fuel : Nat) (tokens : List VToken) (success : Bool) (ast : VAST),
      v_ast_from_tokens fuel tokens = .result success ast →
      (success = false → ast.error.isSome = true) ∧
      (success = true → ast.error = Option.none) := by
  intro fuel tokens success ast h
  unfold v_ast_from_tokens at h
  split at h
  · rename_i root p heq
    split at h
    · rw [ASTOutcome.result.injEq] at h
      obtain ⟨h1, h2⟩ := h
      subst h1; subst h2
      simp_all
    · rw [ASTOutcome.result.injEq] at h
      obtain ⟨h1, h2⟩ := h
      subst h1; subst h2
      simp
  · exact ASTOutcome.noConfusion h
  · exact ASTOutcome.noConfusion h

set_option smartUnfolding false in
/-- Witness for the C2 amended theorem at a concrete successful parse
of `x = 1`. -/
theorem c2_failure_iff_error_recorded_witness :
    (true = false →
      (VAST.mk (some (.VASTSource [.VASTAssignment (.VASTSymbol "x" VType.Unknown)
        (.VASTLiteralInt 1) .Assign VType.Unknown])) Option.none).error.isSome = true) ∧
    (true = true →
      (VAST.mk (some (.VASTSource [.VASTAssignment (.VASTSymbol "x" VType.Unknown)
        (.VASTLiteralInt 1) .Assign VType.Unknown])) Option.none).error = Option.none) :=
  c2_failure_iff_error_recorded 64
    [identTok "x", opTok .Assign, intTok "1", nlTok, eofTok] true
    (VAST.mk (some (.VASTSource [.VASTAssignment (.VASTSymbol "x" VType.Unknown)
      (.VASTLiteralInt 1) .Assign VType.Unknown])) Option.none) rfl

set_option smartUnfolding false in
set_option maxRecDepth 8000 in
/--
C3: the chained-comparison check of `v_parse_comparison` (ast.c, lines
2386-2408) only fires when the second comparator is `==`, `!=` or one
of the keywords `is`/`in`/`not` (the other operators sit behind a TODO,
line 2399).  On the claim's own example `1 < 2 < 3` the parse fails
with "Expected newline or end of block after simple statement" — a
diagnostic that does not contain the promised "Chained comparisons not
fully supported" text — while `1 == 2 == 3` does produce the promised
message.
-/
theorem c3_chained_less_than_not_detected :
    v_ast_from_tokens 64 [intTok "1", opTok .ComparatorLessThan, intTok "2",
        opTok .ComparatorLessThan, intTok "3", eofTok] =
      .result false (VAST.mk Option.none
        (some "Parsing error at line 1: Expected newline or end of block after simple statement")) ∧
    ¬ ("Chained comparisons not fully supported".toList <:+:
       "Parsing error at line 1: Expected newline or end of block after simple statement".toList) ∧
    v_ast_from_tokens 64 [intTok "1", opTok .ComparatorEquals, intTok "2",
        opTok .ComparatorEquals, intTok "3", eofTok] =
      .result false (VAST.mk Option.none
        (some "Parsing error at line 1: Chained comparisons not fully supported yet")) := by
  refine ⟨rfl, ?_, rfl⟩
  decide

/-- An operator of the claim C4 precedence ladder: its level, the token
spelling (two tokens for `is not` / `not in`), and the resulting AST
operator code. -/
structure OpEntry where
  level : Nat
  toks : List VToken
  op : VOperator
deriving DecidableEq, Repr

/--
The binary operators of the precedence ladder of spec section 4.4 with
their levels (2 = `or` … 12 = `**`), each with the token sequence the
lexer emits for it.
-/
def opLadder : List OpEntry :=
  [⟨2, [kwTok .Or], .LogicalOr⟩,
   ⟨3, [kwTok .And], .LogicalAnd⟩,
   ⟨4, [opTok .ComparatorEquals], .ComparatorEquals⟩,
   ⟨4, [opTok .ComparatorNotEquals], .ComparatorNotEquals⟩,
   ⟨4, [opTok .ComparatorLessThan], .ComparatorLessThan⟩,
   ⟨4, [opTok .ComparatorLessEqualsThan], .ComparatorLessEqualsThan⟩,
   ⟨4, [opTok .ComparatorGreaterThan], .ComparatorGreaterThan⟩,
   ⟨4, [opTok .ComparatorGreaterEqualsThan], .ComparatorGreaterEqualsThan⟩,
   ⟨4, [kwTok .Is], .IdentityIs⟩,
   ⟨4, [kwTok .Is, kwTok .Not], .IdentityIsNot⟩,
   ⟨4, [kwTok .In], .MembershipIn⟩,
   ⟨4, [kwTok .Not, kwTok .In], .MembershipNotIn⟩,
   ⟨5, [opTok .BitwiseOr], .BitwiseOr⟩,
   ⟨6, [opTok .BitwiseXor], .BitwiseXor⟩,
   ⟨7, [opTok .BitwiseAnd], .BitwiseAnd⟩,
   ⟨8, [opTok .BitwiseLShift], .BitwiseLShift⟩,
   ⟨8, [opTok .BitwiseRShift], .BitwiseRShift⟩,
   ⟨9, [opTok .Addition], .Addition⟩,
   ⟨9, [opTok .Subtraction], .Subtraction⟩,
   ⟨10, [opTok .Multiplication], .Multiplication⟩,
   ⟨10, [opTok .Division], .Division⟩,
   ⟨10, [opTok .Modulus], .Modulus⟩,
   ⟨10, [opTok .FloorDivision], .FloorDivision⟩,
   ⟨12, [opTok .Exponentiation], .Exponentiation⟩]

/-- Token stream for `a lo b hi c`. -/
def mkPrecTokens (lo hi : OpEntry) : List VToken :=
  [identTok "a"] ++ lo.toks ++ [identTok "b"] ++ hi.toks ++ [identTok "c"] ++ [eofTok]

/-- The tree the claim predicts: `a lo (b hi c)`. -/
def precExpected (lo hi : OpEntry) : VASTNode :=
  .VASTBinOp lo.op (.VASTSymbol "a" VType.Unknown)
    (.VASTBinOp hi.op (.VASTSymbol "b" VType.Unknown) (.VASTSymbol "c" VType.Unknown))

set_option smartUnfolding false in
set_option maxHeartbeats 4000000 in
set_option maxRecDepth 8000 in
/--
C4: for every pair of binary operators of the ladder with the second of
strictly higher precedence, `a lo b hi c` parses with the
higher-precedence operator as the right operand's subtree.
-/
theorem c4_precedence_pairs :
    ∀ lo hi : OpEntry, lo ∈ opLadder → hi ∈ opLadder → lo.level < hi.level →
      runParseExpression 64 (mkPrecTokens lo hi) =
        .result (some (precExpected lo hi)) Option.none := by
  intro lo hi hlo hhi hlt
  fin_cases hlo <;> fin_cases hhi <;>
    first
      | exact absurd hlt (by decide)
      | rfl

set_option smartUnfolding false in
/-- Witness for C4 at the pair `+` (level 9) under `*` (level 10). -/
theorem c4_precedence_pairs_witness :
    runParseExpression 64
      (mkPrecTokens ⟨9, [opTok .Addition], .Addition⟩
                    ⟨10, [opTok .Multiplication], .Multiplication⟩) =
      .result (some (precExpected ⟨9, [opTok .Addition], .Addition⟩
                     ⟨10, [opTok .Multiplication], .Multiplication⟩)) Option.none :=
  c4_precedence_pairs ⟨9, [opTok .Addition], .Addition⟩
    ⟨10, [opTok .Multiplication], .Multiplication⟩ (by decide) (by decide) (by decide)

set_option smartUnfolding false in
set_option maxHeartbeats 1000000 in
set_option maxRecDepth 4000 in
/--
C5: the power operator is right-associative — for identifiers or
literals `A ** B ** C` parses as `BinOp(Pow, A, BinOp(Pow, B, C))`
(`v_parse_power` sends the right operand back through `v_parse_unary`,
ast.c line 2563), as witnessed also by the spec's `2 ** 3 ** 4` example
and by a unary-minus right operand `2 ** - 3`.
-/
theorem c5_power_right_associative :
    (∀ a b c : String,
      runParseExpression 64 [identTok a, opTok .Exponentiation, identTok b,
        opTok .Exponentiation, identTok c, eofTok] =
      .result (some (.VASTBinOp .Exponentiation (.VASTSymbol a VType.Unknown)
        (.VASTBinOp .Exponentiation (.VASTSymbol b VType.Unknown)
          (.VASTSymbol c VType.Unknown)))) Option.none) ∧
    runParseExpression 64 [intTok "2", opTok .Exponentiation, intTok "3",
        opTok .Exponentiation, intTok "4", eofTok] =
      .result (some (.VASTBinOp .Exponentiation (.VASTLiteralInt 2)
        (.VASTBinOp .Exponentiation (.VASTLiteralInt 3)
          (.VASTLiteralInt 4)))) Option.none ∧
    runParseExpression 64 [intTok "2", opTok .Exponentiation,
        opTok .Subtraction, intTok "3", eofTok] =
      .result (some (.VASTBinOp .Exponentiation (.VASTLiteralInt 2)
        (.VASTUnOp .Subtraction (.VASTLiteralInt 3)))) Option.none :=
  ⟨fun _ _ _ => rfl, rfl, rfl⟩

set_option smartUnfolding false in
set_option maxHeartbeats 1000000 in
set_option maxRecDepth 4000 in
/--
C6: `if A: pass elif B: pass elif C: pass else: pass` lowers to the
right-leaning chain `If(A, Body, If(B, Body, If(C, Body, Body)))` —
each elif is installed in the previous chain tail's else slot and the
final else body sits innermost (`v_parse_if_statement`, ast.c lines
1937-2044), for arbitrary identifier conditions.
-/
theorem c6_if_elif_else_right_chain :
    ∀ a b c : String,
      v_ast_from_tokens 64
        [kwTok .If, identTok a, delimTok .Colon, nlTok, indentTok,
         kwTok .Pass, nlTok, dedentTok,
         kwTok .Elif, identTok b, delimTok .Colon, nlTok, indentTok,
         kwTok .Pass, nlTok, dedentTok,
         kwTok .Elif, identTok c, delimTok .Colon, nlTok, indentTok,
         kwTok .Pass, nlTok, dedentTok,
         kwTok .Else, delimTok .Colon, nlTok, indentTok,
         kwTok .Pass, nlTok, dedentTok, eofTok] =
      .result true (VAST.mk
        (some (.VASTSource [.VASTIf (.VASTSymbol a VType.Unknown)
          (.VASTBody [.VASTPass])
          (some (.VASTIf (.VASTSymbol b VType.Unknown)
            (.VASTBody [.VASTPass])
            (some (.VASTIf (.VASTSymbol c VType.Unknown)
              (.VASTBody [.VASTPass])
              (some (.VASTBody [.VASTPass]))))))]))
        Option.none) :=
  fun _ _ _ => rfl

set_option smartUnfolding false in
set_option maxHeartbeats 1000000 in
set_option maxRecDepth 4000 in
/--
C9: the nested-class arm of the class-body redistribution calls
`vector_push_back(attributes, &stmt)` without allocating or
NULL-checking `attributes` (ast.c line 1448), so a class whose first
attributes-bound statement is a nested class dereferences NULL —
`class A:` containing only `class B: pass` crashes — while the same
nested class after a bare-name assignment lands in the attributes list
as the claim describes.
-/
theorem c9_nested_class_first_crashes :
    v_ast_from_tokens 64
      [kwTok .Class, identTok "A", delimTok .Colon, nlTok, indentTok,
       kwTok .Class, identTok "B", delimTok .Colon, nlTok, indentTok,
       kwTok .Pass, nlTok, dedentTok, dedentTok, eofTok] = .crash ∧
    v_ast_from_tokens 64
      [kwTok .Class, identTok "A", delimTok .Colon, nlTok, indentTok,
       identTok "x", opTok .Assign, intTok "1", nlTok,
       kwTok .Class, identTok "B", delimTok .Colon, nlTok, indentTok,
       kwTok .Pass, nlTok, dedentTok, dedentTok, eofTok] =
      .result true (VAST.mk
        (some (.VASTSource [.VASTClass "A" Option.none
          (some [.VASTAttribute "x" VType.Unknown (some (.VASTLiteralInt 1)),
                 .VASTClass "B" Option.none Option.none Option.none Option.none])
          Option.none Option.none]))
        Option.none) :=
  ⟨rfl, rfl⟩

set_option smartUnfolding false in
/--
C10: `v_parser_set_error` reads `token->line` through the result of
`v_parser_peek` without a NULL check (ast.c lines 887-888); when the
parser sits at end of input (the current token is EOF, or the index is
past the vector) peek returns NULL and the C dereferences it instead of
producing a diagnostic — while at any other position the first error is
recorded with the current token's line as the claim describes.
-/
theorem c10_set_error_null_deref_at_end :
    v_parser_set_error "boom"
      {tokens := [eofTok], current := 0, err := Option.none} = .crash ∧
    v_parser_set_error "boom"
      {tokens := [], current := 0, err := Option.none} = .crash ∧
    v_parser_set_error "boom"
      {tokens := [intTok "1", eofTok], current := 0, err := Option.none} =
      .ok () {tokens := [intTok "1", eofTok], current := 0,
              err := some "Parsing error at line 1: boom"} :=
  ⟨rfl, rfl, rfl⟩
